import Mathlib

/-!
Verification development for the WealthPulse evidence-fusion and scoring
engine (backend/app/snapshot/*): a shallow embedding of the scoring,
guardrail, divergence, 13F-recommendation and segment-classification code,
with theorems about the documented behaviour.

Modelling conventions:
* Python floats are modelled as exact rationals, except where the code uses
  the transcendental log1p, which is modelled with Real.log (so those
  definitions live in ℝ).
* Python round is round-half-to-even (pyRoundQ / pyRoundR below).
* datetime values / ISO date strings are modelled as integers (days);
  date ordering and day differences are preserved.
* Python str normalisation (lower/strip/substring/endswith) is modelled on
  character lists, ASCII case folding (provider metadata is ASCII).
* dicts used as string-keyed JSON objects (the reasons audit trail) are
  modelled by the JVal type; insertion order of keys is preserved.
-/

/-- Clamp for rationals, mirroring _clamp in fresh_signals_v0.py and
recommendations_v0.py: max(lo, min(hi, x)). -/
def clampQ (x lo hi : ℚ) : ℚ := max lo (min hi x)

/-- Clamp on ℝ, for the real-valued (log-based) score arithmetic. -/
noncomputable def clampR (x lo hi : ℝ) : ℝ := max lo (min hi x)

/-- Clamp for integers, mirroring _clamp_int in tech_guardrail_v0.py. -/
def clampInt (x lo hi : ℤ) : ℤ := max lo (min hi x)

/-- Python round(): round half to even, over any ordered field with floor. -/
def pyRound {α : Type} [LinearOrderedField α] [FloorRing α] (q : α) : ℤ :=
  if Int.fract q < 1/2 then ⌊q⌋
  else if 1/2 < Int.fract q then ⌊q⌋ + 1
  else if ⌊q⌋ % 2 = 0 then ⌊q⌋ else ⌊q⌋ + 1

/-- Python round() on an exact rational. -/
def pyRoundQ (q : ℚ) : ℤ := pyRound q

/-- Python round() on a real number. -/
noncomputable def pyRoundR (q : ℝ) : ℤ := pyRound q

/-- ASCII lower-casing of one character (Python str.lower on ASCII data). -/
def lcChar (c : Char) : Char :=
  if 65 ≤ c.toNat ∧ c.toNat ≤ 90 then Char.ofNat (c.toNat + 32) else c

/-- ASCII upper-casing of one character (Python str.upper on ASCII data). -/
def ucChar (c : Char) : Char :=
  if 97 ≤ c.toNat ∧ c.toNat ≤ 122 then Char.ofNat (c.toNat - 32) else c

/-- Python s.lower() on the character data of a string. -/
def lowData (s : String) : List Char := s.data.map lcChar

/-- Python s.upper() as a string. -/
def upperStr (s : String) : String := String.mk (s.data.map ucChar)

/-- Whitespace test used by the strip() model. -/
def isWsChar (c : Char) : Bool := c = ' ' ∨ c = '\t' ∨ c = '\n' ∨ c = '\r'

/-- Python s.strip() on character data. -/
def trimData (l : List Char) : List Char :=
  ((l.dropWhile isWsChar).reverse.dropWhile isWsChar).reverse

/-- Prefix test on character lists. -/
def isPrefixData : List Char → List Char → Bool
  | [], _ => true
  | _ :: _, [] => false
  | a :: as, b :: bs => a = b && isPrefixData as bs

/-- Python substring containment (pat in s) on character lists. -/
def containsSub (pat : List Char) : List Char → Bool
  | [] => pat.isEmpty
  | c :: cs => isPrefixData pat (c :: cs) || containsSub pat cs

/-- Python s.endswith(suf) on character lists. -/
def endsWithData (suf s : List Char) : Bool :=
  isPrefixData suf.reverse s.reverse

/-- Code-point lexicographic strict order on character lists (Python str <). -/
def charsLt : List Char → List Char → Bool
  | [], [] => false
  | [], _ :: _ => true
  | _ :: _, [] => false
  | a :: as, b :: bs =>
    if a.toNat < b.toNat then true
    else if b.toNat < a.toNat then false
    else charsLt as bs

/-- Non-strict string order used to model Python sorted() over str keys. -/
def strLeB (a b : String) : Bool := !(charsLt b.data a.data)

/-- Proposition form of strLeB, for use with List.insertionSort. -/
def strLe (a b : String) : Prop := strLeB a b = true

instance : DecidableRel strLe := fun a b => by unfold strLe; infer_instance

/-- Python sorted(set(...)) over strings: deduplicate, then sort ascending. -/
def sortedDedup (l : List String) : List String :=
  List.insertionSort strLe l.dedup

/-! ## trend.py: technical snapshot calculator -/

/-- Result of compute_trend_from_closes (trend.py, TrendMetrics). -/
structure TrendMetrics where
  as_of_date : Option ℤ
  close : Option ℚ
  sma50 : Option ℚ
  return_20d : Option ℚ
  bullish : Bool

/-- Model of _sma in trend.py: None on an empty list, else the mean. -/
def smaQ (values : List ℚ) : Option ℚ :=
  if values = [] then none else some (values.sum / (values.length : ℚ))

/-- Model of compute_trend_from_closes in trend.py. Dates are day numbers. -/
def computeTrendFromCloses (dates : List ℤ) (closes : List ℚ) : TrendMetrics :=
  if dates = [] ∨ closes = [] ∨ dates.length ≠ closes.length then
    ⟨none, none, none, none, false⟩
  else
    let asOf := dates.getLast?.getD 0
    let close := closes.getLast?.getD 0
    let sma50 : Option ℚ :=
      if 50 ≤ closes.length then smaQ (closes.drop (closes.length - 50)) else none
    let ret20 : Option ℚ :=
      if 21 ≤ closes.length then
        let prev := closes.getD (closes.length - 21) 0
        if prev ≠ 0 then some (close / prev - 1) else none
      else none
    let bullish : Bool :=
      match sma50, ret20 with
      | some s, some r => decide (close > s ∧ r > 0)
      | _, _ => false
    ⟨some asOf, some close, sma50, ret20, bullish⟩

/-- The dict returned by compute_technical_snapshot_from_closes (trend.py). -/
structure TechSnap where
  as_of_date : Option ℤ
  close : Option ℚ
  sma50 : Option ℚ
  sma200 : Option ℚ
  return_20d : Option ℚ
  return_60d : Option ℚ
  high_60d : Option ℚ
  low_60d : Option ℚ
  dist_sma50_pct : Option ℚ
  dist_sma200_pct : Option ℚ
  dist_high_60d_pct : Option ℚ
  dist_low_60d_pct : Option ℚ
  bullish : Bool
  bearish : Bool
  near_support : Bool
  near_resistance_60d : Bool
  extended_up : Bool
  below_sma200 : Bool

/-- Model of the local helper _pct in compute_technical_snapshot_from_closes. -/
def pctOf (a b : Option ℚ) : Option ℚ :=
  match a, b with
  | some x, some y => if y = 0 then none else some (x / y - 1)
  | _, _ => none

/-- Model of compute_technical_snapshot_from_closes in trend.py. -/
def computeTechnicalSnapshotFromCloses (dates : List ℤ) (closes : List ℚ) : TechSnap :=
  let tm := computeTrendFromCloses dates closes
  let close := tm.close
  let sma50 := tm.sma50
  let ret20 := tm.return_20d
  let ret60 : Option ℚ :=
    if 61 ≤ closes.length ∧ closes.getD (closes.length - 61) 0 ≠ 0 then
      some (closes.getLast?.getD 0 / closes.getD (closes.length - 61) 0 - 1)
    else none
  let sma200 : Option ℚ :=
    if 200 ≤ closes.length then some ((closes.drop (closes.length - 200)).sum / 200) else none
  let window := closes.drop (closes.length - 60)
  let high60 : Option ℚ := if 60 ≤ closes.length then window.max? else none
  let low60 : Option ℚ := if 60 ≤ closes.length then window.min? else none
  let distSma50 := pctOf close sma50
  let distSma200 := pctOf close sma200
  let distHigh60 := pctOf close high60
  let distLow60 := pctOf close low60
  let bullish : Bool :=
    match close, sma50, ret20 with
    | some c, some s, some r => decide (c > s ∧ r > 0)
    | _, _, _ => false
  let bearish : Bool :=
    match close, sma50, ret20 with
    | some c, some s, some r => decide (c < s ∧ r < 0)
    | _, _, _ => false
  let nearSma50 : Bool :=
    match distSma50 with
    | some d => decide (|d| ≤ 1/50)
    | none => false
  let nearSupport : Bool :=
    bullish &&
      (match close, sma50 with
       | some c, some s => decide (c ≥ s)
       | _, _ => false) && nearSma50
  let nearResistance : Bool :=
    bullish &&
      (match distHigh60 with
       | some d => decide (d ≥ -(1/50))
       | none => false)
  let extendedUp : Bool :=
    bullish &&
      (match distSma50 with
       | some d => decide (d ≥ 2/25)
       | none => false)
  let belowSma200 : Bool :=
    match sma200, close with
    | some s, some c => decide (c < s)
    | _, _ => false
  ⟨tm.as_of_date, close, sma50, sma200, ret20, ret60, high60, low60,
   distSma50, distSma200, distHigh60, distLow60,
   bullish, bearish, nearSupport, nearResistance, extendedUp, belowSma200⟩

/-! ## tech_guardrail_v0.py -/

/-- Result record of apply_tech_guardrail_v0 (tech_guardrail_v0.py). -/
structure TechGuardrailResult where
  score_before : ℤ
  score_after : ℤ
  ft : ℚ
  adj : ℤ
  notes : List String

/-- Model of apply_tech_guardrail_v0 (tech_guardrail_v0.py). -/
def applyTechGuardrailV0 (score : ℤ) (tech : Option TechSnap) : TechGuardrailResult :=
  match tech with
  | none => ⟨score, score, 1, 0, ["no technical data"]⟩
  | some t =>
    let supportBoost := t.bullish && t.near_support
    let chasing := t.bullish && (t.extended_up || t.near_resistance_60d)
    let slowTrend := t.below_sma200 && !t.bullish
    let ft1 : ℚ := if supportBoost then 1 * (1.05 : ℚ) else 1
    let adj1 : ℤ := if supportBoost then 0 + 2 else 0
    let notes1 : List String := if supportBoost then ["near SMA50 support"] else []
    let ft2 : ℚ := if chasing then ft1 * (0.9 : ℚ) else ft1
    let notes2 : List String :=
      notes1 ++
        (if chasing then
          (if t.extended_up then ["extended above SMA50"] else []) ++
            (if t.near_resistance_60d then ["near 60D high"] else [])
         else [])
    let adj3 : ℤ := if slowTrend then adj1 - 3 else adj1
    let notes3 : List String := notes2 ++ (if slowTrend then ["below SMA200"] else [])
    let after := clampInt (pyRoundQ ((score : ℚ) * ft2 + (adj3 : ℚ))) 0 100
    ⟨score, after, ft2, adj3, if notes3 = [] then ["neutral"] else notes3⟩

/-! ## JSON-like values for the reasons audit dicts -/

/-- String-keyed JSON-like value modelling the Python dicts stored in the
reasons audit trail; object field order mirrors insertion order. -/
inductive JVal where
  | null
  | bool (b : Bool)
  | num (q : ℚ)
  | str (s : String)
  | arr (elems : List JVal)
  | obj (fields : List (String × JVal))

/-- Dict key lookup: Python dict.get(k) on an object, None otherwise. -/
def jGet (v : JVal) (k : String) : Option JVal :=
  match v with
  | .obj fields => fields.lookup k
  | _ => none

/-- Model of _safe_get in segments_v0.py: nested dict lookup along a path. -/
def jSafeGet (v : JVal) : List String → Option JVal
  | [] => some v
  | k :: ks =>
    match jGet v k with
    | some w => jSafeGet w ks
    | none => none

/-- Python dict assignment d[k] = v on an object: replace the first binding
of k in place, else append the new key at the end (insertion order). -/
def jSetFields (k : String) (v : JVal) : List (String × JVal) → List (String × JVal)
  | [] => [(k, v)]
  | (k', v') :: rest =>
    if k' = k then (k', v) :: rest else (k', v') :: jSetFields k v rest

/-- Python dict assignment on a JVal object (no-op on non-objects). -/
def jSet (d : JVal) (k : String) (v : JVal) : JVal :=
  match d with
  | .obj fields => .obj (jSetFields k v fields)
  | other => other

/-- Python truthiness of a JSON value. -/
def jTruthy : JVal → Bool
  | .null => false
  | .bool b => b
  | .num q => decide (q ≠ 0)
  | .str s => decide (s ≠ "")
  | .arr elems => !elems.isEmpty
  | .obj fields => !fields.isEmpty

/-- Python int() truncation toward zero on an exact rational. -/
def ratTrunc (q : ℚ) : ℤ := Int.tdiv q.num (q.den : ℤ)

/-- Model of _to_float in segments_v0.py applied to a _safe_get result.
Numeric strings never occur in the produced reasons objects, so the
str case (Python float("...")) is folded into the failure default. -/
def jToFloat (v : Option JVal) (default : ℚ) : ℚ :=
  match v with
  | some (.num q) => q
  | some (.bool b) => if b then 1 else 0
  | _ => default

/-- Model of _to_int in segments_v0.py applied to a _safe_get result. -/
def jToInt (v : Option JVal) (default : ℤ) : ℤ :=
  match v with
  | some (.num q) => ratTrunc q
  | some (.bool b) => if b then 1 else 0
  | _ => default

/-- Embed an optional rational as a JSON value (None becomes null). -/
def jOptNum (o : Option ℚ) : JVal :=
  match o with
  | some q => .num q
  | none => .null

/-- Embed an optional integer as a JSON value (None becomes null). -/
def jOptInt (o : Option ℤ) : JVal :=
  match o with
  | some n => .num (n : ℚ)
  | none => .null

/-- Embed an optional string as a JSON value (None becomes null). -/
def jOptStr (o : Option String) : JVal :=
  match o with
  | some s => .str s
  | none => .null

/-- Embed an optional boolean as a JSON value (None becomes null). -/
def jOptBool (o : Option Bool) : JVal :=
  match o with
  | some b => .bool b
  | none => .null

/-! ## fresh_signals_v0.py: parameters, feature bundle, scorer -/

/-- FreshSignalParams (fresh_signals_v0.py); as_of is a day number. -/
structure FreshSignalParams where
  as_of : ℤ
  fresh_days : ℤ := 7
  insider_min_value : ℚ := 100000
  top_n : ℕ := 20
  buy_score_threshold : ℤ := 75
  avoid_score_threshold : ℤ := 35

/-- The volume dict built by _compute_volume_spike; dict key "ratio" is
modelled by the field ratioVal. -/
structure VolObj where
  avg20 : Option ℚ
  latest : Option ℚ
  ratioVal : Option ℚ
  spike : Option Bool

/-- The market / sector regime dict built by market_regime.py and
sector_regime.py; rticker models the "ticker" key. -/
structure Regime where
  rticker : String
  as_of_date : Option ℤ
  close : Option ℚ
  sma50 : Option ℚ
  return_20d : Option ℚ
  bullish_recent : Bool
  bearish_recent : Bool
  recent : Bool

/-- The optional 13F context dict attached per ticker by
compute_fresh_signals_v0 (whale_by_ticker entries). -/
structure Ctx13F where
  ctx_as_of : ℤ
  report_period : Option String
  previous_period : Option String
  delta_value_usd : ℤ
  total_value_usd : ℤ
  manager_count : ℤ
  manager_increase_count : ℤ
  manager_decrease_count : ℤ

/-- The optional social listener dict built by compute_fresh_signals_v0. -/
structure SocialObj where
  enabled : Bool
  source : Option String
  latest_bucket_start : Option ℤ
  mentions_latest : ℤ
  mentions_baseline_7d : Option ℚ
  velocity : Option ℚ
  persistent : Bool
  sentiment_hint : Option ℚ
  velocity_threshold : ℚ
  min_mentions : ℤ

/-- FreshSignalFeatures (fresh_signals_v0.py). -/
structure FreshSignalFeatures where
  ticker : String
  sc13_count : ℤ
  sc13_latest_filed_at : Option ℤ
  insider_buy_value : ℚ
  insider_sell_value : ℚ
  insider_buy_count : ℤ
  insider_sell_count : ℤ
  insider_latest_event_date : Option ℤ
  trend : Option TechSnap
  trend_bullish_recent : Bool
  trend_bearish_recent : Bool
  volume : Option VolObj
  volume_spike : Bool
  context_13f : Option Ctx13F
  market : Option Regime
  sector : Option Regime
  insider_buy_value_10b5 : ℚ := 0
  insider_sell_value_10b5 : ℚ := 0
  insider_buy_count_10b5 : ℤ := 0
  insider_sell_count_10b5 : ℤ := 0
  insider_cluster_buy_insiders : ℤ := 0
  social : Option SocialObj := none

/-- FreshSignalRow (fresh_signals_v0.py): one scored output row. -/
structure FreshSignalRow where
  ticker : String
  segment : String
  action : String
  direction : String
  score : ℤ
  confidence : ℚ
  reasons : JVal

/-- Insider net value (fresh_signals_v0.py line 104): discretionary net plus
0.20-weighted scheduled (10b5-1) net. -/
def netOf (f : FreshSignalFeatures) : ℚ :=
  (f.insider_buy_value - f.insider_sell_value) +
    (0.20 : ℚ) * (f.insider_buy_value_10b5 - f.insider_sell_value_10b5)

/-- net_mag (line 107): log1p(abs(net)/1e6)/log1p(100). -/
noncomputable def netMag (net : ℚ) : ℝ :=
  Real.log (1 + |(net : ℝ)| / 1000000) / Real.log (1 + 100)

/-- net_component (line 108): 25 * clamp(net_mag, 0, 1). -/
noncomputable def netComponent (net : ℚ) : ℝ := 25 * clampR (netMag net) 0 1

/-- The signed contribution of the insider net component to the score
(lines 109-112: added when net is positive, subtracted when negative). -/
noncomputable def netSigned (net : ℚ) : ℝ :=
  if 0 < net then netComponent net
  else if net < 0 then -netComponent net
  else 0

/-- SC13 component (lines 99-100). -/
def sc13Component (f : FreshSignalFeatures) : ℚ :=
  if 0 < f.sc13_count then 45 + min 15 (5 * ((min f.sc13_count 3 : ℤ) : ℚ)) else 0

/-- Trend component (lines 115-118). -/
def trendComponent (f : FreshSignalFeatures) : ℚ :=
  if f.trend_bullish_recent then 10
  else if f.trend_bearish_recent then -10
  else 0

/-- Volume confirmation component (lines 121-124). -/
def volumeComponent (f : FreshSignalFeatures) : ℚ :=
  if f.volume_spike && f.trend_bullish_recent then 5
  else if f.volume_spike && f.trend_bearish_recent then -5
  else 0

/-- 13F context component (lines 127-132). -/
def ctx13fComponent (f : FreshSignalFeatures) : ℚ :=
  match f.context_13f with
  | some c => if 0 < c.delta_value_usd then 5 else if c.delta_value_usd < 0 then -3 else 0
  | none => 0

/-- Market regime score adjustment (lines 135-140). -/
def marketScoreAdj (f : FreshSignalFeatures) : ℚ :=
  match f.market with
  | some m => if m.bearish_recent then -2 else if m.bullish_recent then 1 else 0
  | none => 0

/-- Sector regime score adjustment (lines 144-149). -/
def sectorScoreAdj (f : FreshSignalFeatures) : ℚ :=
  match f.sector with
  | some s => if s.bearish_recent then -1 else if s.bullish_recent then 1 else 0
  | none => 0

/-- Social listener score and confidence adjustments (lines 153-172). -/
def socialAdj (f : FreshSignalFeatures) : ℚ × ℚ :=
  match f.social with
  | some s =>
    if s.enabled then
      let velocity : ℚ := s.velocity.getD 0
      let sentimentOk : Prop := s.sentiment_hint = none ∨ 0 ≤ s.sentiment_hint.getD 0
      if s.persistent = true ∧ s.velocity_threshold ≤ velocity ∧
          s.min_mentions ≤ s.mentions_latest then
        if sentimentOk then ((4 : ℚ), (0.04 : ℚ)) else ((-4 : ℚ), (-0.04 : ℚ))
      else if s.velocity_threshold ≤ velocity ∧ s.min_mentions ≤ s.mentions_latest then
        ((if sentimentOk then (1 : ℚ) else (-1 : ℚ)), (-0.01 : ℚ))
      else (0, 0)
    else (0, 0)
  | none => (0, 0)

/-- The accumulated real-valued score before the first clamp/round
(fresh_signals_v0.py lines 96-173). -/
noncomputable def freshBaseScore (f : FreshSignalFeatures) : ℝ :=
  50 + (sc13Component f : ℝ) + netSigned (netOf f) + (trendComponent f : ℝ) +
    (volumeComponent f : ℝ) + (ctx13fComponent f : ℝ) + (marketScoreAdj f : ℝ) +
    (sectorScoreAdj f : ℝ) + ((socialAdj f).1 : ℝ)

/-- score_i after the first clamp and round (line 175). -/
noncomputable def freshScoreRounded (f : FreshSignalFeatures) : ℤ :=
  pyRoundR (clampR (freshBaseScore f) 0 100)

/-- The guardrail result computed at line 176. -/
noncomputable def freshGuardrail (f : FreshSignalFeatures) : TechGuardrailResult :=
  applyTechGuardrailV0 (freshScoreRounded f) f.trend

/-- score_i after the cluster discretionary-buy bonus (lines 180-181). -/
noncomputable def freshScoreClustered (f : FreshSignalFeatures) (p : FreshSignalParams) : ℤ :=
  let s := (freshGuardrail f).score_after
  if 3 ≤ f.insider_cluster_buy_insiders ∧ p.insider_min_value ≤ f.insider_buy_value then
    pyRoundQ (clampQ ((s : ℚ) + 5) 0 100)
  else s

/-- Direction assignment (lines 186-190); the bearish check only overwrites
a still-neutral slot. -/
def freshDirection (f : FreshSignalFeatures) : String :=
  let net := netOf f
  let d1 := if f.trend_bullish_recent = true ∨ 0 < net then "bullish" else "neutral"
  if f.trend_bearish_recent = true ∨ net < 0 then
    (if d1 = "neutral" then "bearish" else d1)
  else d1

/-- Insider flow direction from the sign of net (lines 192-196). -/
def insiderDirOf (net : ℚ) : String :=
  if 0 < net then "bullish" else if net < 0 then "bearish" else "neutral"

/-- Trend direction from the recency flags (line 197). -/
def trendDirOf (f : FreshSignalFeatures) : String :=
  if f.trend_bullish_recent then "bullish"
  else if f.trend_bearish_recent then "bearish"
  else "neutral"

/-- Divergence classification record (lines 199-222). -/
structure DivergenceInfo where
  label : String
  note : String
  score_adj : ℤ
  conf_adj : ℚ

/-- The divergence analyzer if-chain (lines 203-222). -/
def divergenceOf (insDir trendDir : String) (sc13_count : ℤ) : DivergenceInfo :=
  if insDir = "bullish" ∧ trendDir = "bearish" then
    ⟨"bullish_divergence", "insider accumulation while trend is bearish", 3, (-0.03 : ℚ)⟩
  else if insDir = "bearish" ∧ trendDir = "bullish" then
    ⟨"bearish_divergence", "insider selling against bullish trend", -8, (-0.08 : ℚ)⟩
  else if 0 < sc13_count ∧ trendDir = "bearish" then
    ⟨"sc13_trend_conflict", "SC13 filing present but price trend is bearish", -4, (-0.06 : ℚ)⟩
  else if insDir ≠ "neutral" ∧ insDir = trendDir then
    ⟨"alignment", "insider flow and trend are aligned", 1, (0.02 : ℚ)⟩
  else ⟨"none", "signals are neutral/mixed", 0, 0⟩

/-- The divergence classification of a feature bundle. -/
def freshDivergence (f : FreshSignalFeatures) : DivergenceInfo :=
  divergenceOf (insiderDirOf (netOf f)) (trendDirOf f) f.sc13_count

/-- Final score_i after the divergence adjustment (lines 224-225). -/
noncomputable def freshScoreFinal (f : FreshSignalFeatures) (p : FreshSignalParams) : ℤ :=
  let s := freshScoreClustered f p
  let d := freshDivergence f
  if d.score_adj ≠ 0 then pyRoundQ (clampQ ((s + d.score_adj : ℤ) : ℚ) 0 100) else s

/-- has_fresh_event (lines 227-233). -/
def hasFreshEvent (f : FreshSignalFeatures) (p : FreshSignalParams) : Bool :=
  decide (0 < f.sc13_count) || decide (p.insider_min_value ≤ f.insider_buy_value) ||
    decide (p.insider_min_value ≤ f.insider_sell_value) ||
    decide (p.insider_min_value ≤ f.insider_buy_value_10b5) ||
    decide (p.insider_min_value ≤ f.insider_sell_value_10b5)

/-- Action assignment (lines 234-247). -/
noncomputable def freshAction (f : FreshSignalFeatures) (p : FreshSignalParams) : String :=
  let s := freshScoreFinal f p
  let net := netOf f
  let strongInsiderBuy := p.insider_min_value ≤ f.insider_buy_value
  if p.buy_score_threshold ≤ s ∧ hasFreshEvent f p = true ∧
      (f.trend_bullish_recent = true ∨ 0 < net) ∧
      (0 < f.sc13_count ∨ strongInsiderBuy ∨ f.trend_bullish_recent = true ∨ 0 < net) then
    "buy"
  else if s ≤ p.avoid_score_threshold ∧ hasFreshEvent f p = true ∧
      (f.trend_bearish_recent = true ∨ (net < 0 ∧ ¬f.trend_bullish_recent = true)) then
    "avoid"
  else if (freshDivergence f).label = "bearish_divergence" ∧
      s ≤ p.avoid_score_threshold + 5 then
    "avoid"
  else "watch"

/-- Market regime confidence adjustment (lines 271-277). -/
def marketConfAdj (f : FreshSignalFeatures) : ℚ :=
  match f.market with
  | some m => if m.bearish_recent then (-0.05 : ℚ) else if m.bullish_recent then (0.02 : ℚ) else 0
  | none => 0

/-- Sector regime confidence adjustment (lines 279-285). -/
def sectorConfAdj (f : FreshSignalFeatures) : ℚ :=
  match f.sector with
  | some s => if s.bearish_recent then (-0.02 : ℚ) else if s.bullish_recent then (0.01 : ℚ) else 0
  | none => 0

/-- Confidence accumulation before the final clamp (lines 250-288). -/
def freshConfRaw (f : FreshSignalFeatures) (p : FreshSignalParams) : ℚ :=
  (0.25 : ℚ) + (if 0 < f.sc13_count then (0.25 : ℚ) else 0) +
    (if p.insider_min_value ≤ f.insider_buy_value then (0.20 : ℚ)
     else if p.insider_min_value ≤ f.insider_buy_value_10b5 then (0.05 : ℚ) else 0) +
    (if p.insider_min_value ≤ f.insider_sell_value then (0.10 : ℚ)
     else if p.insider_min_value ≤ f.insider_sell_value_10b5 then (0.02 : ℚ) else 0) +
    (if 3 ≤ f.insider_cluster_buy_insiders ∧ p.insider_min_value ≤ f.insider_buy_value then
      (0.15 : ℚ) else 0) +
    (if f.trend.isSome ∧ (f.trend_bullish_recent = true ∨ f.trend_bearish_recent = true) then
      (0.15 : ℚ) else 0) +
    (if f.volume_spike then (0.05 : ℚ) else 0) +
    (if f.context_13f.isSome then (0.05 : ℚ) else 0) +
    marketConfAdj f + sectorConfAdj f + (socialAdj f).2 + (freshDivergence f).conf_adj

/-- conf_f: final confidence clamped to [0.10, 0.90] (line 290). -/
def freshConfidence (f : FreshSignalFeatures) (p : FreshSignalParams) : ℚ :=
  clampQ (freshConfRaw f p) (0.10 : ℚ) (0.90 : ℚ)

/-- conviction_1_10 (line 183): (score_i + 9) // 10, with Python floor division. -/
noncomputable def freshConviction (f : FreshSignalFeatures) (p : FreshSignalParams) : ℤ :=
  Int.fdiv (freshScoreClustered f p + 9) 10

/-- Embed the technical snapshot dict into the reasons object. -/
def techSnapJ (t : Option TechSnap) : JVal :=
  match t with
  | none => .null
  | some t =>
    .obj [("as_of_date", jOptInt t.as_of_date), ("close", jOptNum t.close),
      ("sma50", jOptNum t.sma50), ("sma200", jOptNum t.sma200),
      ("return_20d", jOptNum t.return_20d), ("return_60d", jOptNum t.return_60d),
      ("high_60d", jOptNum t.high_60d), ("low_60d", jOptNum t.low_60d),
      ("dist_sma50_pct", jOptNum t.dist_sma50_pct),
      ("dist_sma200_pct", jOptNum t.dist_sma200_pct),
      ("dist_high_60d_pct", jOptNum t.dist_high_60d_pct),
      ("dist_low_60d_pct", jOptNum t.dist_low_60d_pct),
      ("bullish", .bool t.bullish), ("bearish", .bool t.bearish),
      ("near_support", .bool t.near_support),
      ("near_resistance_60d", .bool t.near_resistance_60d),
      ("extended_up", .bool t.extended_up), ("below_sma200", .bool t.below_sma200)]

/-- Embed the volume dict into the reasons object. -/
def volObjJ (v : Option VolObj) : JVal :=
  match v with
  | none => .null
  | some v =>
    .obj [("avg20", jOptNum v.avg20), ("latest", jOptNum v.latest),
      ("ratio", jOptNum v.ratioVal), ("spike", jOptBool v.spike)]

/-- Embed a market / sector regime dict into the reasons object. -/
def regimeJ (r : Option Regime) : JVal :=
  match r with
  | none => .null
  | some r =>
    .obj [("ticker", .str r.rticker), ("as_of_date", jOptInt r.as_of_date),
      ("close", jOptNum r.close), ("sma50", jOptNum r.sma50),
      ("return_20d", jOptNum r.return_20d),
      ("bullish_recent", .bool r.bullish_recent),
      ("bearish_recent", .bool r.bearish_recent), ("recent", .bool r.recent),
      ("rule", .str "bullish if close>SMA50 and 20D return>0")]

/-- Embed the 13F context dict into the reasons object. -/
def ctx13fJ (c : Option Ctx13F) : JVal :=
  match c with
  | none => .null
  | some c =>
    .obj [("as_of", .num (c.ctx_as_of : ℚ)),
      ("report_period", jOptStr c.report_period),
      ("previous_period", jOptStr c.previous_period),
      ("delta_value_usd", .num (c.delta_value_usd : ℚ)),
      ("total_value_usd", .num (c.total_value_usd : ℚ)),
      ("manager_count", .num (c.manager_count : ℚ)),
      ("manager_increase_count", .num (c.manager_increase_count : ℚ)),
      ("manager_decrease_count", .num (c.manager_decrease_count : ℚ))]

/-- Embed the social dict into the reasons object. -/
def socialJ (s : Option SocialObj) : JVal :=
  match s with
  | none => .null
  | some s =>
    .obj [("enabled", .bool s.enabled), ("source", jOptStr s.source),
      ("latest_bucket_start", jOptInt s.latest_bucket_start),
      ("mentions_latest", .num (s.mentions_latest : ℚ)),
      ("mentions_baseline_7d", jOptNum s.mentions_baseline_7d),
      ("velocity", jOptNum s.velocity), ("persistent", .bool s.persistent),
      ("sentiment_hint", jOptNum s.sentiment_hint),
      ("velocity_threshold", .num s.velocity_threshold),
      ("min_mentions", .num (s.min_mentions : ℚ))]

/-- The reasons audit object built by score_fresh_signal_v0
(fresh_signals_v0.py lines 292-343). -/
noncomputable def freshReasons (f : FreshSignalFeatures) (p : FreshSignalParams) : JVal :=
  let net := netOf f
  let tg := freshGuardrail f
  let sadj := socialAdj f
  let d := freshDivergence f
  .obj [
    ("signal", .str "Fresh whale signals (SC13 + Form 4 + trend/volume)"),
    ("as_of", .num (p.as_of : ℚ)),
    ("fresh_days", .num (p.fresh_days : ℚ)),
    ("insider_min_value", .num p.insider_min_value),
    ("sc13", .obj [("count", .num (f.sc13_count : ℚ)),
      ("latest_filed_at", jOptInt f.sc13_latest_filed_at)]),
    ("insider", .obj [("buy_value", .num f.insider_buy_value),
      ("sell_value", .num f.insider_sell_value),
      ("net_value", .num net),
      ("buy_count", .num (f.insider_buy_count : ℚ)),
      ("sell_count", .num (f.insider_sell_count : ℚ)),
      ("buy_value_10b5", .num f.insider_buy_value_10b5),
      ("sell_value_10b5", .num f.insider_sell_value_10b5),
      ("buy_count_10b5", .num (f.insider_buy_count_10b5 : ℚ)),
      ("sell_count_10b5", .num (f.insider_sell_count_10b5 : ℚ)),
      ("cluster_buy_insiders", .num (f.insider_cluster_buy_insiders : ℚ)),
      ("latest_event_date", jOptInt f.insider_latest_event_date)]),
    ("insider_quality_policy", .obj [
      ("codes_high_signal", .arr [.str "P", .str "S"]),
      ("codes_ignored", .arr [.str "A", .str "M", .str "G"]),
      ("planned_trade_weight", .num (0.20 : ℚ)),
      ("cluster_buy_rule", .str ">=3 distinct insiders with discretionary P in fresh window")]),
    ("trend", techSnapJ f.trend),
    ("trend_flags", .obj [("bullish_recent", .bool f.trend_bullish_recent),
      ("bearish_recent", .bool f.trend_bearish_recent)]),
    ("tech_guardrail", .obj [("ft", .num tg.ft), ("adj", .num (tg.adj : ℚ)),
      ("score_before", .num (tg.score_before : ℚ)),
      ("score_after", .num (tg.score_after : ℚ)),
      ("notes", .arr (tg.notes.map JVal.str))]),
    ("volume", volObjJ f.volume),
    ("context_13f", ctx13fJ f.context_13f),
    ("market", regimeJ f.market),
    ("market_adjustment", .obj [("score", .num (marketScoreAdj f)),
      ("confidence", .num (marketConfAdj f))]),
    ("sector", regimeJ f.sector),
    ("sector_adjustment", .obj [("score", .num (sectorScoreAdj f)),
      ("confidence", .num (sectorConfAdj f))]),
    ("social", socialJ f.social),
    ("social_adjustment", .obj [("score", .num sadj.1), ("confidence", .num sadj.2)]),
    ("divergence", .obj [("label", .str d.label),
      ("insider_direction", .str (insiderDirOf net)),
      ("trend_direction", .str (trendDirOf f)),
      ("score_adjustment", .num (d.score_adj : ℚ)),
      ("confidence_adjustment", .num d.conf_adj),
      ("note", .str d.note)]),
    ("conviction_1_10", .num (freshConviction f p : ℚ))]

/-- Model of score_fresh_signal_v0 (fresh_signals_v0.py lines 93-353). -/
noncomputable def scoreFreshSignalV0 (f : FreshSignalFeatures) (p : FreshSignalParams) :
    FreshSignalRow :=
  { ticker := f.ticker
    segment := "Fresh Whale Signals (SC13 + Insider + Trend)"
    action := freshAction f p
    direction := freshDirection f
    score := freshScoreFinal f p
    confidence := freshConfidence f p
    reasons := freshReasons f p }

/-! ## recommendations_v0.py: institutional (13F) scorer -/

/-- WhaleDeltaRow (recommendations_v0.py). -/
structure WhaleDeltaRow where
  ticker : String
  cusip : String
  delta_value_usd : ℤ
  total_value_usd : ℤ
  manager_count : ℤ
  manager_increase_count : ℤ
  manager_decrease_count : ℤ
  security_type : Option String := none
  security_type2 : Option String := none
  market_sector : Option String := none

/-- RecommendationRow (recommendations_v0.py). -/
structure RecommendationRow where
  ticker : String
  segment : String
  action : String
  direction : String
  score : ℤ
  confidence : ℝ
  reasons : JVal

/-- Model of _is_equity (recommendations_v0.py lines 37-65): lower-cased,
stripped provider labels; label-based exclusion of ETF / fund / unit rows,
permissive fallback when no labels are present. -/
def isEquity (r : WhaleDeltaRow) : Bool :=
  let ms := trimData (lowData (r.market_sector.getD ""))
  let st := trimData (lowData (r.security_type.getD ""))
  let st2 := trimData (lowData (r.security_type2.getD ""))
  if ms ≠ [] ∧ ms ≠ "equity".data then false
  else if containsSub "etf".data st || containsSub "etf".data st2 then false
  else if containsSub "fund".data st || containsSub "fund".data st2 then false
  else if containsSub "unit".data st2 then false
  else if st2 ≠ [] ∧ (st2 = "equity".data ∨ st2 = "common stock".data) then true
  else if st2 ≠ [] ∧ ms = "equity".data then true
  else decide (ms = "equity".data) || decide (ms = [] ∧ st = [] ∧ st2 = [])

/-- Model of _looks_like_etf_or_fund (recommendations_v0.py line 68):
ticker.upper().endswith("IV"). -/
def looksLikeEtfOrFund (ticker : String) : Bool :=
  endsWithData "IV".data (upperStr ticker).data

/-- The per-row admission test of the candidate filter loop in
score_recommendations_from_13f (lines 88-99): non-empty ticker, positive
delta, equity-like labels, not the ETF-name heuristic. -/
def recsCandidate (r : WhaleDeltaRow) : Bool :=
  decide (r.ticker ≠ "") && decide (0 < r.delta_value_usd) && isEquity r &&
    !looksLikeEtfOrFund r.ticker

/-- The candidate set (the filtered list, lines 88-99). -/
def recsFiltered (rows : List WhaleDeltaRow) : List WhaleDeltaRow :=
  rows.filter recsCandidate

/-- Descending order on absolute delta magnitude (line 105). -/
def absDeltaGe (a b : WhaleDeltaRow) : Prop :=
  |b.delta_value_usd| ≤ |a.delta_value_usd|

instance : DecidableRel absDeltaGe := fun a b => by unfold absDeltaGe; infer_instance

/-- abs_rank lookup (lines 106, 120): dict built from enumerate with
later duplicates overwriting, read with a default. -/
def absRankOf (sorted : List WhaleDeltaRow) (t : String) (default : ℕ) : ℕ :=
  match (sorted.enum.filter (fun pr => pr.2.ticker = t)).getLast? with
  | some pr => pr.1
  | none => default

/-- One output row of score_recommendations_from_13f (lines 112-189).
The real-valued score_breakdown diagnostics sub-dict (pure echoes of the
intermediates below) is omitted from the reasons object. -/
noncomputable def recsRowOf (cov : Option ℚ) (sorted : List WhaleDeltaRow)
    (r : WhaleDeltaRow) : RecommendationRow :=
  let n := sorted.length
  let maxRank : ℕ := max 1 (n - 1)
  let maxAbsDelta : ℤ := ((sorted.map (fun x => |x.delta_value_usd|)).max?).getD 1
  let rank : ℕ := absRankOf sorted r.ticker maxRank
  let magComponent : ℚ := 1 - (rank : ℚ) / (maxRank : ℚ)
  let magScore : ℚ := 55 * magComponent
  let breadth : ℚ :=
    if r.manager_count ≠ 0 then (r.manager_increase_count : ℚ) / (r.manager_count : ℚ) else 0
  let breadthScore : ℚ := 25 * breadth
  let sizeScore : ℝ :=
    10 * clampR (Real.log (1 + (max r.total_value_usd 0 : ℤ)) /
      Real.log (1 + 100000000000)) 0 1
  let coveragePen : ℚ :=
    match cov with
    | some c => 10 * clampQ ((0.20 : ℚ) - c) 0 (0.20 : ℚ) / (0.20 : ℚ)
    | none => 0
  let samplePen : ℚ := if r.manager_count < 3 then 6 else 0
  let penalty : ℚ := coveragePen + samplePen
  let base : ℝ := (magScore : ℝ) + (breadthScore : ℝ) + sizeScore - (penalty : ℝ)
  let score : ℤ := pyRoundR (clampR base 0 100)
  let confRaw : ℝ :=
    0.20 + 0.15 * clampR (Real.log (1 + (r.manager_count : ℤ)) / Real.log (1 + 25)) 0 1 +
      0.20 * clampR ((|r.delta_value_usd| : ℝ) / (maxAbsDelta : ℝ)) 0 1 -
      (match cov with
       | some c => (0.15 : ℝ) * ((clampQ ((0.10 : ℚ) - c) 0 (0.10 : ℚ) / (0.10 : ℚ) : ℚ) : ℝ)
       | none => 0)
  let conf : ℝ := clampR confRaw (0.05 : ℝ) (0.65 : ℝ)
  { ticker := r.ticker
    segment := "Institutional Accumulation (13F)"
    action := "watch"
    direction := "bullish"
    score := score
    confidence := conf
    reasons := .obj [
      ("signal", .str "13F quarter-over-quarter delta (delayed)"),
      ("delta_value_usd", .num (r.delta_value_usd : ℚ)),
      ("total_value_usd", .num (r.total_value_usd : ℚ)),
      ("breadth", .obj [("increase", .num (r.manager_increase_count : ℚ)),
        ("decrease", .num (r.manager_decrease_count : ℚ)),
        ("total", .num (r.manager_count : ℚ))]),
      ("rank_abs_delta", .num ((rank : ℚ) + 1)),
      ("universe_size", .num (n : ℚ))] }

/-- Descending (score, confidence) order used for the final ranking
(recommendations_v0.py line 192). -/
def recRowGe (a b : RecommendationRow) : Prop :=
  b.score < a.score ∨ (b.score = a.score ∧ b.confidence ≤ a.confidence)

noncomputable instance : DecidableRel recRowGe := fun _ _ => Classical.propDecidable _

/-- Model of score_recommendations_from_13f (recommendations_v0.py
lines 74-192). -/
noncomputable def scoreRecommendationsFrom13f (rows : List WhaleDeltaRow)
    (mapped_coverage_ratio : Option ℚ) (top_n : ℕ) : List RecommendationRow :=
  let filtered := recsFiltered rows
  if filtered.isEmpty then []
  else
    let sorted := List.insertionSort absDeltaGe filtered
    let out := filtered.map (recsRowOf mapped_coverage_ratio sorted)
    (List.insertionSort recRowGe out).take top_n

/-! ## segments_v0.py: segment classifier -/

/-- The fields of a persisted SnapshotRecommendation row that
compute_segments_v0 reads. -/
structure SnapRec where
  ticker : String
  action : String
  direction : String
  score : ℤ
  confidence : ℚ
  reasons : JVal

/-- SegmentPick (segments_v0.py); the display-only why string built with
_fmt_millions is presentational and is not modelled. -/
structure SegmentPick where
  ticker : String
  score : ℤ
  action : String
  confidence : ℚ
  source_kind : String

/-- SegmentCandidate (segments_v0.py). -/
structure SegmentCandidate where
  key : String
  priority : ℤ
  strength : ℚ
  pick : SegmentPick

/-- SEGMENT_PRIORITY (segments_v0.py lines 145-151). -/
def segPriorityOf (k : String) : ℤ :=
  if k = "insider" then 1
  else if k = "activist" then 2
  else if k = "institutional" then 3
  else if k = "momentum" then 4
  else 5

/-- Descending order on (strength, -priority), the sort key of
_choose_primary_segment. -/
def candGe (a b : SegmentCandidate) : Prop :=
  b.strength < a.strength ∨ (b.strength = a.strength ∧ a.priority ≤ b.priority)

instance : DecidableRel candGe := fun a b => by unfold candGe; infer_instance

/-- Model of _choose_primary_segment (segments_v0.py lines 85-104). -/
def choosePrimary (cands : List SegmentCandidate) : Option SegmentCandidate :=
  match List.insertionSort candGe cands with
  | [] => none
  | top :: rest =>
    match (top :: rest).find? (fun c => c.key == "risk") with
    | some rc =>
      if top.key ≠ "risk" ∧ top.strength + 6 ≤ rc.strength then some rc else some top
    | none => some top

/-- The divergence label read by compute_segments_v0 (line 185):
str(_safe_get(fresh_reasons, "divergence", "type") or ""). A truthy
non-string value would stringify to something other than the two compared
labels, so it is folded into the empty-string default. -/
def segDivergenceType (reasons : JVal) : String :=
  match jSafeGet reasons ["divergence", "type"] with
  | some (.str s) => s
  | _ => ""

/-- The candidate list one ticker generates in compute_segments_v0
(segments_v0.py lines 156-290). Values read only by the display-only why
strings (sc13 latest date, net value, 20D return, trend adjustment) are
not modelled. -/
def segTickerCandidates (ticker : String) (fresh recs : Option SnapRec) :
    List SegmentCandidate :=
  let freshR : JVal := match fresh with | some r => r.reasons | none => .obj []
  let recR : JVal := match recs with | some r => r.reasons | none => .obj []
  let freshScore : ℤ := match fresh with | some r => r.score | none => 0
  let freshConf : ℚ := match fresh with | some r => r.confidence | none => 0
  let recScore : ℤ := match recs with | some r => r.score | none => 0
  let recConf : ℚ := match recs with | some r => r.confidence | none => 0
  let sc13Count : ℤ := jToInt (jSafeGet freshR ["sc13", "count"]) 0
  let buyValue : ℚ := jToFloat (jSafeGet freshR ["insider", "buy_value"]) 0
  let sellValue : ℚ := jToFloat (jSafeGet freshR ["insider", "sell_value"]) 0
  let clusterBuy : Bool := jTruthy ((jSafeGet freshR ["insider_quality", "cluster_buy"]).getD .null)
  let trendBull : Bool := jTruthy ((jSafeGet freshR ["trend_flags", "bullish_recent"]).getD .null)
  let trendBear : Bool := jTruthy ((jSafeGet freshR ["trend_flags", "bearish_recent"]).getD .null)
  let delta : ℚ := jToFloat (jSafeGet recR ["delta_value_usd"]) 0
  let inc : ℤ := jToInt (jSafeGet recR ["breadth", "increase"]) 0
  let total : ℤ := max 1 (jToInt (jSafeGet recR ["breadth", "total"]) 0)
  let breadthRatio : ℚ := (inc : ℚ) / (total : ℚ)
  let trendRecentTop : Bool := jTruthy ((jSafeGet recR ["corroborators", "trend_bullish_recent"]).getD .null)
  let divergenceType : String := segDivergenceType freshR
  let insiderCands : List SegmentCandidate :=
    match fresh with
    | some fr =>
      if 0 < buyValue then
        [⟨"insider", segPriorityOf "insider",
          (freshScore : ℚ) + (if clusterBuy then 4 else 0) + min 6 (buyValue / 1000000),
          ⟨ticker, freshScore, fr.action, freshConf, "fresh_signals_v0"⟩⟩]
      else []
    | none => []
  let activistCands : List SegmentCandidate :=
    match fresh with
    | some fr =>
      if 0 < sc13Count then
        [⟨"activist", segPriorityOf "activist",
          (freshScore : ℚ) + min 8 (2 * (sc13Count : ℚ)),
          ⟨ticker, freshScore, fr.action, freshConf, "fresh_signals_v0"⟩⟩]
      else []
    | none => []
  let institutionalCands : List SegmentCandidate :=
    match recs with
    | some rr =>
      if 0 < delta then
        [⟨"institutional", segPriorityOf "institutional",
          (recScore : ℚ) + 10 * breadthRatio + min 6 (delta / 1000000000),
          ⟨ticker, recScore, rr.action, recConf, "recommendations_v0"⟩⟩]
      else []
    | none => []
  let momentumCands : List SegmentCandidate :=
    if (fresh.isSome ∧ trendBull = true ∧ trendBear = false) ∨
        (recs.isSome ∧ trendRecentTop = true) then
      let momScore := max freshScore recScore
      let momConf := max freshConf recConf
      let momSource : String :=
        if fresh.isSome ∧ trendBull = true ∧ trendBear = false then "fresh_signals_v0"
        else "recommendations_v0"
      let momAction : String :=
        if fresh.isSome ∧ momSource = "fresh_signals_v0" then
          (match fresh with | some fr => fr.action | none => "watch")
        else (match recs with | some rr => rr.action | none => "watch")
      [⟨"momentum", segPriorityOf "momentum",
        (momScore : ℚ) + (if trendBull then 3 else 0),
        ⟨ticker, momScore, momAction, momConf, momSource⟩⟩]
    else []
  let riskPoints : ℚ :=
    (if (match fresh with | some fr => fr.action == "avoid" | none => false) then 16 else 0) +
      (if (match recs with | some rr => rr.action == "avoid" | none => false) then 10 else 0) +
      (if trendBear then 10 else 0) +
      (if buyValue < sellValue then 8 else 0) +
      (if divergenceType = "bearish_divergence" ∨ divergenceType = "sc13_trend_conflict"
        then 8 else 0)
  let riskCands : List SegmentCandidate :=
    if 0 < riskPoints ∧ fresh.isSome then
      [⟨"risk", segPriorityOf "risk",
        ((max freshScore recScore : ℤ) : ℚ) + riskPoints,
        ⟨ticker, max freshScore recScore, "avoid", max freshConf recConf,
          "fresh_signals_v0"⟩⟩]
    else []
  insiderCands ++ activistCands ++ institutionalCands ++ momentumCands ++ riskCands

/-- Last-wins dict {r.ticker: r for r in rows} lookup (lines 141-142). -/
def segLastByTicker (rows : List SnapRec) (t : String) : Option SnapRec :=
  (rows.filter (fun r => r.ticker = t)).getLast?

/-- all_tickers (line 143): sorted union of the per-source ticker sets. -/
def segAllTickers (freshRows recsRows : List SnapRec) : List String :=
  sortedDedup (freshRows.map (fun r => r.ticker) ++ recsRows.map (fun r => r.ticker))

/-- The per-run assignment map ticker → claimed primary candidate
(segments_v0.py lines 153-296). -/
def segAssignment (freshRows recsRows : List SnapRec) :
    List (String × SegmentCandidate) :=
  (segAllTickers freshRows recsRows).filterMap (fun t =>
    (choosePrimary
        (segTickerCandidates t (segLastByTicker freshRows t) (segLastByTicker recsRows t))).map
      (fun c => (t, c)))

/-- Descending order on (strength, pick confidence), the display sort of
the _sort helper (line 298). -/
def segDisplayGe (a b : SegmentCandidate) : Prop :=
  b.strength < a.strength ∨ (b.strength = a.strength ∧ b.pick.confidence ≤ a.pick.confidence)

instance : DecidableRel segDisplayGe := fun a b => by unfold segDisplayGe; infer_instance

/-- The candidates claimed by one bucket, in claim order. -/
def segBucketCands (assignment : List (String × SegmentCandidate)) (k : String) :
    List SegmentCandidate :=
  (assignment.filter (fun pr => pr.2.key = k)).map (fun pr => pr.2)

/-- The five bucket keys, in declared priority order. -/
def segKeys : List String := ["insider", "activist", "institutional", "momentum", "risk"]

/-- Output of compute_segments_v0 (the presentational envelope of names and
as-of strings is not modelled). -/
structure SegOutput where
  assignment : List (String × SegmentCandidate)
  buckets : List (String × List SegmentPick)
  ticker_assignment_count : ℕ

/-- Model of compute_segments_v0 (segments_v0.py lines 107-357) over the
row lists of the two latest runs. -/
def computeSegmentsV0 (freshRows recsRows : List SnapRec) (picks_per_segment : ℕ) :
    SegOutput :=
  let A := segAssignment freshRows recsRows
  { assignment := A
    buckets := segKeys.map (fun k =>
      (k, ((List.insertionSort segDisplayGe (segBucketCands A k)).map
            (fun c => c.pick)).take (max 1 picks_per_segment)))
    ticker_assignment_count := A.length }

/-! ## market_regime.py / sector_regime.py / volume spike -/

/-- A PriceBar row as read by the snapshot queries. -/
structure BarRow where
  ticker : String
  source : String
  date : ℤ
  close : ℚ
  volume : Option ℤ

/-- Ascending date order for the order_by(PriceBar.date) queries. -/
def barLe (a b : BarRow) : Prop := a.date ≤ b.date

instance : DecidableRel barLe := fun a b => by unfold barLe; infer_instance

/-- The price-bar query shared by compute_market_regime,
compute_regime_for_ticker and compute_fresh_signals_v0: bars of one ticker
from the stooq source, no later than the as-of day, ordered by date. -/
def priceBarsFor (bars : List BarRow) (asOfDay : ℤ) (t : String) : List BarRow :=
  List.insertionSort barLe
    (bars.filter (fun b => b.ticker == t && b.source == "stooq" && decide (b.date ≤ asOfDay)))

/-- Model of compute_regime_for_ticker (sector_regime.py lines 27-70);
compute_market_regime (market_regime.py lines 12-68) has the same body. -/
def computeRegimeForTicker (bars : List BarRow) (asOf : ℤ) (ticker : String) : Option Regime :=
  let tbars := priceBarsFor bars asOf ticker
  if tbars.length < 55 then none
  else
    let tm := computeTrendFromCloses (tbars.map (fun b => b.date)) (tbars.map (fun b => b.close))
    let isRecent : Bool :=
      match tm.as_of_date with
      | some d => decide (0 ≤ asOf - d ∧ asOf - d ≤ 3)
      | none => false
    let bearishRecent : Bool :=
      isRecent &&
        (match tm.close, tm.sma50, tm.return_20d with
         | some c, some s, some r => decide (c < s ∧ r < 0)
         | _, _, _ => false)
    some ⟨ticker, tm.as_of_date, tm.close, tm.sma50, tm.return_20d,
      isRecent && tm.bullish, bearishRecent, isRecent⟩

/-- Model of compute_market_regime (market_regime.py). -/
def computeMarketRegime (bars : List BarRow) (asOf : ℤ) (ticker : String) : Option Regime :=
  computeRegimeForTicker bars asOf ticker

/-- SECTOR_ETFS (sector_regime.py lines 12-24). -/
def sectorEtfs : List String :=
  ["XLC", "XLY", "XLP", "XLE", "XLF", "XLV", "XLI", "XLB", "XLK", "XLU", "XLRE"]

/-- Model of compute_sector_regimes (sector_regime.py lines 73-79). -/
def computeSectorRegimes (bars : List BarRow) (asOf : ℤ) : List (String × Regime) :=
  sectorEtfs.filterMap (fun e => (computeRegimeForTicker bars asOf e).map (fun r => (e, r)))

/-- Model of _compute_volume_spike (fresh_signals_v0.py lines 44-57) at its
default window 20 and spike ratio 1.8. -/
def computeVolumeSpike (volumes : List (Option ℤ)) : VolObj :=
  let vols : List ℚ := volumes.filterMap (fun v => v.map (fun n => (n : ℚ)))
  if vols.length < 21 then ⟨none, none, none, none⟩
  else
    let latest := vols.getLast?.getD 0
    let avg20 := ((vols.drop (vols.length - 21)).dropLast).sum / 20
    let ratioV : Option ℚ := if avg20 ≠ 0 then some (latest / avg20) else none
    let spike : Bool :=
      match ratioV with
      | some rv => decide ((1.8 : ℚ) ≤ rv)
      | none => false
    ⟨some avg20, some latest, ratioV, some spike⟩

/-! ## compute_fresh_signals_v0: database rows and the run pipeline -/

/-- A LargeOwnerFiling row (the columns selected at lines 367-378). -/
structure LofRow where
  ticker : Option String
  source_accession : Option String
  form_type : Option String
  filer_name : Option String
  filed_at : Option ℤ
  accepted_at : Option ℤ

/-- An InsiderTx row joined with its InsiderTxMeta (lines 400-419). -/
structure InsRow where
  ticker : Option String
  transaction_code : Option String
  transaction_value : Option ℚ
  shares : Option ℚ
  price : Option ℚ
  insider_name : Option String
  insider_cik : Option String
  is_10b5_1 : Option Bool
  event_date : Option ℤ
  filed_at : Option ℤ
  source_accession : Option String
  is_derivative : Bool

/-- A SocialSignal row (lines 436-448). -/
structure SocRow where
  ticker : String
  bucket_start : ℤ
  mentions : Option ℤ
  sentiment_hint : Option ℚ
  source : Option String

/-- A SnapshotRun row; the params dict is modelled by its two read keys. -/
structure RunRow where
  id : ℕ
  kind : String
  as_of : ℤ
  created_at : ℤ
  report_period : Option String
  previous_period : Option String

/-- A Security row (ticker to CUSIP mapping). -/
structure SecRow where
  ticker : String
  cusip : Option String

/-- A Snapshot13FWhale row. -/
structure WhaleSnapRow where
  run_id : ℕ
  cusip : String
  delta_value_usd : ℤ
  total_value_usd : ℤ
  manager_count : ℤ
  manager_increase_count : ℤ
  manager_decrease_count : ℤ

/-- The settings the pipeline reads (settings.py). -/
structure AppSettings where
  social_enabled : Bool
  social_velocity_threshold : ℚ
  social_min_mentions : ℤ

/-- The in-memory database rows compute_fresh_signals_v0 queries;
tickerSectorEtfMap models get_setting(session, "ticker_sector_etf_map_v0")
or {}. -/
structure Db where
  largeOwnerFilings : List LofRow
  insiderTxs : List InsRow
  priceBars : List BarRow
  socialSignals : List SocRow
  snapshotRuns : List RunRow
  securities : List SecRow
  whaleRows : List WhaleSnapRow
  appSettings : AppSettings
  tickerSectorEtfMap : List (String × String)

/-- Python truthiness of an optional string key: None and "" are skipped. -/
def tickerVal (o : Option String) : Option String :=
  match o with
  | some s => if s = "" then none else some s
  | none => none

/-- The fresh SC13 filing query (lines 367-378): filed_at present and at
least as_of - fresh_days. -/
def sc13FreshRows (db : Db) (p : FreshSignalParams) : List LofRow :=
  db.largeOwnerFilings.filter (fun r =>
    match r.filed_at with
    | some d => decide (p.as_of - p.fresh_days ≤ d)
    | none => false)

/-- The fresh SC13 rows grouped to one ticker (lines 379-396). -/
def sc13RowsFor (db : Db) (p : FreshSignalParams) (t : String) : List LofRow :=
  (sc13FreshRows db p).filter (fun r => tickerVal r.ticker == some t)

/-- sc13_by_ticker count for one ticker. -/
def sc13CountFor (db : Db) (p : FreshSignalParams) (t : String) : ℤ :=
  ((sc13RowsFor db p t).length : ℤ)

/-- sc13_by_ticker latest_filed_at for one ticker. -/
def sc13LatestFor (db : Db) (p : FreshSignalParams) (t : String) : Option ℤ :=
  ((sc13RowsFor db p t).filterMap (fun r => r.filed_at)).max?

/-- The Form 4 event query (lines 400-419): event date in the fresh window,
non-derivative, transaction code P or S. -/
def insiderEventRows (db : Db) (p : FreshSignalParams) : List InsRow :=
  db.insiderTxs.filter (fun r =>
    (match r.event_date with
     | some d => decide (p.as_of - p.fresh_days ≤ d)
     | none => false) &&
      !r.is_derivative &&
      (r.transaction_code == some "P" || r.transaction_code == some "S"))

/-- The fresh insider events grouped to one ticker (lines 420-425). -/
def insiderEventsFor (db : Db) (p : FreshSignalParams) (t : String) : List InsRow :=
  (insiderEventRows db p).filter (fun r => tickerVal r.ticker == some t)

/-- tickers (line 427): sorted union of the two grouped key sets. -/
def freshTickers (db : Db) (p : FreshSignalParams) : List String :=
  sortedDedup ((sc13FreshRows db p).filterMap (fun r => tickerVal r.ticker) ++
    (insiderEventRows db p).filterMap (fun r => tickerVal r.ticker))

/-- Query order of the social rows: ticker ascending, bucket_start
descending (line 447). -/
def socLe (a b : SocRow) : Prop :=
  charsLt a.ticker.data b.ticker.data = true ∨
    (a.ticker = b.ticker ∧ b.bucket_start ≤ a.bucket_start)

instance : DecidableRel socLe := fun a b => by unfold socLe; infer_instance

/-- The social listener dict for one upper-cased ticker key
(fresh_signals_v0.py lines 431-481); none when the feature flag is off or
the ticker has no rows in the window. -/
def socialFor (db : Db) (p : FreshSignalParams) (tickers : List String) (tUpper : String) :
    Option SocialObj :=
  if db.appSettings.social_enabled then
    let rows :=
      (List.insertionSort socLe
          (db.socialSignals.filter (fun r =>
            decide (r.ticker ∈ tickers) && decide (p.as_of - 7 ≤ r.bucket_start) &&
              decide (r.bucket_start ≤ p.as_of)))).filter
        (fun r => upperStr r.ticker == tUpper)
    match rows with
    | [] => none
    | r0 :: rest =>
      let latestMentions : ℤ := r0.mentions.getD 0
      let prevMentions : List ℤ := rest.map (fun r => r.mentions.getD 0)
      let baseline : Option ℚ :=
        if prevMentions.isEmpty then none
        else some ((prevMentions.map (fun n => (n : ℚ))).sum / (prevMentions.length : ℚ))
      let velocity : Option ℚ :=
        match baseline with
        | some b => if 0 < b then some ((latestMentions : ℚ) / b) else none
        | none => none
      let threshold := db.appSettings.social_velocity_threshold
      let persistent : Bool :=
        match baseline, rest with
        | some b, r1 :: _ =>
          decide (0 < b) && decide (threshold * b ≤ (r0.mentions.getD 0 : ℚ)) &&
            decide (threshold * b ≤ (r1.mentions.getD 0 : ℚ))
        | _, _ => false
      some ⟨true, r0.source, some r0.bucket_start, latestMentions, baseline, velocity,
        persistent, r0.sentiment_hint, threshold, db.appSettings.social_min_mentions⟩
  else none

/-- Descending (as_of, created_at) order of the _latest_run queries. -/
def runGe (a b : RunRow) : Prop :=
  b.as_of < a.as_of ∨ (b.as_of = a.as_of ∧ b.created_at ≤ a.created_at)

instance : DecidableRel runGe := fun a b => by unfold runGe; infer_instance

/-- Latest snapshot run of a kind (order_by as_of desc, created_at desc). -/
def latestRun (runs : List RunRow) (kind : String) : Option RunRow :=
  (List.insertionSort runGe (runs.filter (fun r => r.kind == kind))).head?

/-- The optional 13F whale context for one ticker (lines 483-512):
securities of the run tickers, their CUSIPs, the latest 13f_whales run rows,
with Python dict last-wins semantics for duplicate keys. -/
def whaleFor (db : Db) (tickers : List String) (t : String) : Option Ctx13F :=
  match latestRun db.snapshotRuns "13f_whales" with
  | none => none
  | some run =>
    let secRows := db.securities.filter (fun s => decide (s.ticker ∈ tickers))
    let cusips : List String := secRows.filterMap (fun s => tickerVal s.cusip)
    let whales : List WhaleSnapRow :=
      if cusips.isEmpty then []
      else db.whaleRows.filter (fun w =>
        decide (w.run_id = run.id) && decide (w.cusip ∈ cusips))
    let ctxOfSec : SecRow → Option Ctx13F := fun s =>
      ((whales.filter (fun w => some w.cusip == s.cusip)).getLast?).map (fun w =>
        { ctx_as_of := run.as_of
          report_period := run.report_period
          previous_period := run.previous_period
          delta_value_usd := w.delta_value_usd
          total_value_usd := w.total_value_usd
          manager_count := w.manager_count
          manager_increase_count := w.manager_increase_count
          manager_decrease_count := w.manager_decrease_count })
    ((secRows.filter (fun s => s.ticker == t)).filterMap ctxOfSec).getLast?

/-- Bars for one ticker in the per-ticker loop (lines 526-533). -/
def freshBars (db : Db) (p : FreshSignalParams) (t : String) : List BarRow :=
  priceBarsFor db.priceBars p.as_of t

/-- trend_obj (lines 534-543): only with at least 55 bars. -/
def freshTrendObj (db : Db) (p : FreshSignalParams) (t : String) : Option TechSnap :=
  let bars := freshBars db p t
  if 55 ≤ bars.length then
    some (computeTechnicalSnapshotFromCloses (bars.map (fun b => b.date))
      (bars.map (fun b => b.close)))
  else none

/-- vol_obj (lines 537-544). -/
def freshVolObj (db : Db) (p : FreshSignalParams) (t : String) : Option VolObj :=
  let bars := freshBars db p t
  if 55 ≤ bars.length then some (computeVolumeSpike (bars.map (fun b => b.volume)))
  else none

/-- The recency test on the trend snapshot (lines 549-557): last bar within
3 calendar days of as_of. -/
def freshIsRecent (db : Db) (p : FreshSignalParams) (t : String) : Bool :=
  match freshTrendObj db p t with
  | some tr =>
    (match tr.as_of_date with
     | some d => decide (0 ≤ p.as_of - d ∧ p.as_of - d ≤ 3)
     | none => false)
  | none => false

/-- trend_bullish_recent (lines 559-563). -/
def freshBullRecent (db : Db) (p : FreshSignalParams) (t : String) : Bool :=
  match freshTrendObj db p t with
  | some tr =>
    freshIsRecent db p t &&
      (match tr.sma50, tr.return_20d, tr.close with
       | some s50, some r20, some c => decide (c > s50 ∧ r20 > 0)
       | _, _, _ => false)
  | none => false

/-- trend_bearish_recent (lines 559-564). -/
def freshBearRecent (db : Db) (p : FreshSignalParams) (t : String) : Bool :=
  match freshTrendObj db p t with
  | some tr =>
    freshIsRecent db p t &&
      (match tr.sma50, tr.return_20d, tr.close with
       | some s50, some r20, some c => decide (c < s50 ∧ r20 < 0)
       | _, _, _ => false)
  | none => false

/-- _close_on_or_before (lines 569-576): the last close recorded for the
day, else the close of the most recent earlier bar; always None when fewer
than 55 bars were available (close_by_date stays empty, lines 565-567). -/
def freshCloseOnOrBefore (db : Db) (p : FreshSignalParams) (t : String) (day : ℤ) :
    Option ℚ :=
  let bars := freshBars db p t
  if 55 ≤ bars.length then
    match (bars.filter (fun b => b.date == day)).getLast? with
    | some b => some b.close
    | none =>
      match bars.reverse.find? (fun b => decide (b.date ≤ day)) with
      | some b => ((bars.filter (fun b2 => b2.date == b.date)).getLast?).map (fun b2 => b2.close)
      | none => none
  else none

/-- The mutable accumulators of the insider aggregation loop
(fresh_signals_v0.py lines 578-667); qualifying transactions keep their
value for the later sort by absolute value. -/
structure InsiderAgg where
  buy_value : ℚ := 0
  sell_value : ℚ := 0
  buy_count : ℤ := 0
  sell_count : ℤ := 0
  buy_value_10b5 : ℚ := 0
  sell_value_10b5 : ℚ := 0
  buy_count_10b5 : ℤ := 0
  sell_count_10b5 : ℤ := 0
  cluster_ids : List String := []
  latest_event_date : Option ℤ := none
  estimated_value_count : ℤ := 0
  qualifying_txs : List (JVal × ℚ) := []

/-- Value resolution of one insider row (lines 611-626): stored value,
else shares times reported price, else shares times last known close on or
before the event date; the Bool marks an estimated value. -/
def insiderValueOf (closeF : ℤ → Option ℚ) (eventDt : ℤ) (r : InsRow) :
    Option (ℚ × Bool) :=
  match r.transaction_value with
  | some v => some (v, false)
  | none =>
    match r.shares, r.price with
    | some sh, some pr => some (sh * pr, true)
    | some sh, none => (closeF eventDt).map (fun px => (sh * px, true))
    | none, _ => none

/-- One step of the insider aggregation loop (lines 592-667). -/
def insiderStep (p : FreshSignalParams) (closeF : ℤ → Option ℚ)
    (acc : InsiderAgg) (r : InsRow) : InsiderAgg :=
  match r.event_date with
  | none => acc
  | some eventDt =>
    let codeU := String.mk (trimData ((r.transaction_code.getD "").data.map ucChar))
    if codeU ≠ "P" ∧ codeU ≠ "S" then acc
    else
      match insiderValueOf closeF eventDt r with
      | none => acc
      | some (value, estimated) =>
        if value < p.insider_min_value then acc
        else
          let is10b5 := r.is_10b5_1.getD false
          let acc1 : InsiderAgg :=
            if codeU = "P" then
              if is10b5 then
                { acc with
                  buy_value_10b5 := acc.buy_value_10b5 + value
                  buy_count_10b5 := acc.buy_count_10b5 + 1 }
              else
                { acc with
                  buy_value := acc.buy_value + value
                  buy_count := acc.buy_count + 1
                  cluster_ids :=
                    match tickerVal r.insider_cik with
                    | some cik => acc.cluster_ids ++ [cik]
                    | none =>
                      match tickerVal r.insider_name with
                      | some nm => acc.cluster_ids ++ [nm]
                      | none => acc.cluster_ids }
            else
              if is10b5 then
                { acc with
                  sell_value_10b5 := acc.sell_value_10b5 + value
                  sell_count_10b5 := acc.sell_count_10b5 + 1 }
              else
                { acc with
                  sell_value := acc.sell_value + value
                  sell_count := acc.sell_count + 1 }
          let detail : JVal := .obj [
            ("accession", jOptStr r.source_accession),
            ("code", .str codeU),
            ("value", .num value),
            ("shares", jOptNum r.shares),
            ("price", jOptNum r.price),
            ("estimated", .bool estimated),
            ("insider_name", jOptStr r.insider_name),
            ("insider_cik", jOptStr r.insider_cik),
            ("is_10b5_1", jOptBool r.is_10b5_1),
            ("event_date", .num (eventDt : ℚ)),
            ("filed_at", jOptInt r.filed_at)]
          { acc1 with
            latest_event_date :=
              match acc1.latest_event_date with
              | some d => if d < eventDt then some eventDt else some d
              | none => some eventDt
            estimated_value_count :=
              acc1.estimated_value_count + (if estimated then 1 else 0)
            qualifying_txs := acc1.qualifying_txs ++ [(detail, value)] }

/-- The insider aggregation for one ticker. -/
def freshAggFor (db : Db) (p : FreshSignalParams) (t : String) : InsiderAgg :=
  (insiderEventsFor db p t).foldl (insiderStep p (freshCloseOnOrBefore db p t)) {}

/-- The negation of the skip test at lines 670-672: a ticker is scored when
it has a fresh SC13 filing or at least one qualifying insider event. -/
def freshQualifies (db : Db) (p : FreshSignalParams) (t : String) : Bool :=
  let agg := freshAggFor db p t
  decide (sc13CountFor db p t ≠ 0) ||
    decide (agg.buy_count + agg.sell_count + agg.buy_count_10b5 + agg.sell_count_10b5 ≠ 0)

/-- The feature bundle handed to score_fresh_signal_v0 (lines 677-706). -/
def freshFeaturesFor (db : Db) (p : FreshSignalParams) (tickers : List String)
    (t : String) : FreshSignalFeatures :=
  let agg := freshAggFor db p t
  { ticker := t
    sc13_count := sc13CountFor db p t
    sc13_latest_filed_at := sc13LatestFor db p t
    insider_buy_value := agg.buy_value
    insider_sell_value := agg.sell_value
    insider_buy_count := agg.buy_count
    insider_sell_count := agg.sell_count
    insider_latest_event_date := agg.latest_event_date
    insider_buy_value_10b5 := agg.buy_value_10b5
    insider_sell_value_10b5 := agg.sell_value_10b5
    insider_buy_count_10b5 := agg.buy_count_10b5
    insider_sell_count_10b5 := agg.sell_count_10b5
    insider_cluster_buy_insiders := ((agg.cluster_ids.dedup).length : ℤ)
    social := socialFor db p tickers (upperStr t)
    trend := freshTrendObj db p t
    trend_bullish_recent := freshBullRecent db p t
    trend_bearish_recent := freshBearRecent db p t
    volume := freshVolObj db p t
    volume_spike :=
      (match freshVolObj db p t with
       | some v => v.spike == some true
       | none => false)
    context_13f := whaleFor db tickers t
    market := computeMarketRegime db.priceBars p.as_of "SPY"
    sector :=
      match db.tickerSectorEtfMap.lookup t with
      | some etf => (computeSectorRegimes db.priceBars p.as_of).lookup etf
      | none => none }

/-- SC13 evidence detail dict of one filing row (lines 388-396). -/
def sc13DetailJ (r : LofRow) : JVal :=
  .obj [("accession", jOptStr r.source_accession),
    ("form_type", jOptStr r.form_type),
    ("filer_name", jOptStr r.filer_name),
    ("filed_at", jOptInt r.filed_at),
    ("accepted_at", jOptInt r.accepted_at)]

/-- Option-valued date order with None sorting lowest (the filed_at or ""
sort key at line 711). -/
def optIntLeB : Option ℤ → Option ℤ → Bool
  | none, _ => true
  | some _, none => false
  | some a, some b => decide (a ≤ b)

/-- Descending filed_at order for the SC13 evidence list. -/
def sc13DetailGe (a b : LofRow) : Prop := optIntLeB b.filed_at a.filed_at = true

instance : DecidableRel sc13DetailGe := fun a b => by unfold sc13DetailGe; infer_instance

/-- Descending absolute transaction value (line 712). -/
def txAbsGe (a b : JVal × ℚ) : Prop := |b.2| ≤ |a.2|

instance : DecidableRel txAbsGe := fun a b => by unfold txAbsGe; infer_instance

/-- One emitted row: the scorer output with the estimated-value count and
the evidence lists appended to the reasons dict (lines 677-714). -/
noncomputable def freshRowFor (db : Db) (p : FreshSignalParams) (tickers : List String)
    (t : String) : FreshSignalRow :=
  let row := scoreFreshSignalV0 (freshFeaturesFor db p tickers t) p
  let agg := freshAggFor db p t
  let insider0 := (jGet row.reasons "insider").getD (.obj [])
  let reasons1 :=
    jSet row.reasons "insider"
      (jSet insider0 "estimated_value_count" (.num (agg.estimated_value_count : ℚ)))
  let evidence : JVal := .obj [
    ("sc13_filings",
      .arr (((List.insertionSort sc13DetailGe (sc13RowsFor db p t)).map sc13DetailJ).take 5)),
    ("insider_txs",
      .arr (((List.insertionSort txAbsGe agg.qualifying_txs).map (fun pr => pr.1)).take 8))]
  { row with reasons := jSet reasons1 "evidence" evidence }

/-- Descending (score, confidence) order of the final ranking (line 716). -/
def freshRowGe (a b : FreshSignalRow) : Prop :=
  b.score < a.score ∨ (b.score = a.score ∧ b.confidence ≤ a.confidence)

instance : DecidableRel freshRowGe := fun a b => by unfold freshRowGe; infer_instance

/-- The out list before ranking and truncation (lines 514-714): one row per
ticker of the deduplicated ticker list that passes the skip test. -/
noncomputable def freshRowsAll (db : Db) (p : FreshSignalParams) : List FreshSignalRow :=
  let tickers := freshTickers db p
  tickers.filterMap (fun t =>
    if freshQualifies db p t then some (freshRowFor db p tickers t) else none)

/-- Model of compute_fresh_signals_v0 (fresh_signals_v0.py lines 356-716). -/
noncomputable def computeFreshSignalsV0 (db : Db) (p : FreshSignalParams) :
    List FreshSignalRow :=
  if (freshTickers db p).isEmpty then []
  else (List.insertionSort freshRowGe (freshRowsAll db p)).take p.top_n

/-! ## Claim-side definitions (formalisations of the spec wording) -/

/-- The multiplicative factor ft of the guardrail as the spec states it:
starts at 1.0, times 1.05 on bullish near-support, times 0.90 on bullish
chasing. -/
def claimFt (t : TechSnap) : ℚ :=
  (if t.bullish ∧ t.near_support then (1.05 : ℚ) else 1) *
    (if t.bullish ∧ (t.extended_up ∨ t.near_resistance_60d) then (0.9 : ℚ) else 1)

/-- The additive adjustment adj of the guardrail as the spec states it:
starts at 0, plus 2 on bullish near-support, minus 3 on below-SMA200
without a bullish flag. -/
def claimAdj (t : TechSnap) : ℤ :=
  (if t.bullish ∧ t.near_support then (2 : ℤ) else 0) +
    (if t.below_sma200 ∧ ¬t.bullish then (-3 : ℤ) else 0)

/-- No insider evidence: all four value buckets and the cluster count are
zero. -/
def insiderInactive (f : FreshSignalFeatures) : Prop :=
  f.insider_buy_value = 0 ∧ f.insider_sell_value = 0 ∧
    f.insider_buy_value_10b5 = 0 ∧ f.insider_sell_value_10b5 = 0 ∧
    f.insider_cluster_buy_insiders = 0

/-- Some insider evidence: at least one value bucket is non-zero. -/
def insiderActive (f : FreshSignalFeatures) : Prop :=
  ¬(f.insider_buy_value = 0 ∧ f.insider_sell_value = 0 ∧
    f.insider_buy_value_10b5 = 0 ∧ f.insider_sell_value_10b5 = 0)

/-- No trend evidence: no snapshot and no recency flags. -/
def trendInactive (f : FreshSignalFeatures) : Prop :=
  f.trend = none ∧ f.trend_bullish_recent = false ∧ f.trend_bearish_recent = false

/-- Inactivity of the remaining evidence sources. -/
def restInactive (f : FreshSignalFeatures) : Prop :=
  f.volume_spike = false ∧ f.context_13f = none ∧ f.market = none ∧
    f.sector = none ∧ f.social = none

/-- Only the SC13 component is active. -/
def onlySc13 (f : FreshSignalFeatures) : Prop :=
  1 ≤ f.sc13_count ∧ insiderInactive f ∧ trendInactive f ∧ restInactive f

/-- Only the insider component is active. -/
def onlyInsider (f : FreshSignalFeatures) : Prop :=
  f.sc13_count = 0 ∧ insiderActive f ∧ trendInactive f ∧ restInactive f

/-- Only the trend component is active (a technical snapshot may be
present, so the guardrail applies). -/
def onlyTrend (f : FreshSignalFeatures) : Prop :=
  (f.trend_bullish_recent = true ∨ f.trend_bearish_recent = true) ∧
    f.sc13_count = 0 ∧ insiderInactive f ∧ f.volume_spike = false ∧
    f.context_13f = none ∧ f.market = none ∧ f.sector = none ∧ f.social = none

/-- Only the volume-spike flag is active. -/
def onlyVolume (f : FreshSignalFeatures) : Prop :=
  f.volume_spike = true ∧ f.sc13_count = 0 ∧ insiderInactive f ∧ trendInactive f ∧
    f.context_13f = none ∧ f.market = none ∧ f.sector = none ∧ f.social = none

/-- Only the 13F context is active. -/
def onlyCtx13f (f : FreshSignalFeatures) : Prop :=
  f.context_13f.isSome ∧ f.sc13_count = 0 ∧ insiderInactive f ∧ trendInactive f ∧
    f.volume_spike = false ∧ f.market = none ∧ f.sector = none ∧ f.social = none

/-- Only the market regime is active. -/
def onlyMarket (f : FreshSignalFeatures) : Prop :=
  f.market.isSome ∧ f.sc13_count = 0 ∧ insiderInactive f ∧ trendInactive f ∧
    f.volume_spike = false ∧ f.context_13f = none ∧ f.sector = none ∧ f.social = none

/-- Only the sector regime is active. -/
def onlySector (f : FreshSignalFeatures) : Prop :=
  f.sector.isSome ∧ f.sc13_count = 0 ∧ insiderInactive f ∧ trendInactive f ∧
    f.volume_spike = false ∧ f.context_13f = none ∧ f.market = none ∧ f.social = none

/-- Only the social listener is active. -/
def onlySocial (f : FreshSignalFeatures) : Prop :=
  f.social.isSome ∧ f.sc13_count = 0 ∧ insiderInactive f ∧ trendInactive f ∧
    f.volume_spike = false ∧ f.context_13f = none ∧ f.market = none ∧ f.sector = none

/-- Replace the discretionary insider buy value, holding every other
feature fixed. -/
def updateBuy (f : FreshSignalFeatures) (b : ℚ) : FreshSignalFeatures :=
  { f with insider_buy_value := b }

/-- Provider metadata labels the row ETF, fund or unit (the exclusion
labels of the spec, on the normalised security-type fields). -/
def claimLabeledEtfFundUnit (r : WhaleDeltaRow) : Prop :=
  containsSub "etf".data (trimData (lowData (r.security_type.getD ""))) = true ∨
    containsSub "etf".data (trimData (lowData (r.security_type2.getD ""))) = true ∨
    containsSub "fund".data (trimData (lowData (r.security_type.getD ""))) = true ∨
    containsSub "fund".data (trimData (lowData (r.security_type2.getD ""))) = true ∨
    containsSub "unit".data (trimData (lowData (r.security_type2.getD ""))) = true

/-- The row carries no classification metadata at all: market sector and
both security types are absent or blank. -/
def claimNoMetadata (r : WhaleDeltaRow) : Prop :=
  trimData (lowData (r.market_sector.getD "")) = [] ∧
    trimData (lowData (r.security_type.getD "")) = [] ∧
    trimData (lowData (r.security_type2.getD "")) = []

/-- Disjointness of two ticker lists. -/
def disjointStr (a b : List String) : Bool := a.all (fun t => !(b.contains t))

/-- Pairwise disjointness of a family of ticker lists. -/
def pairwiseDisjointStr : List (List String) → Bool
  | [] => true
  | x :: xs => xs.all (disjointStr x) && pairwiseDisjointStr xs

/-! ## Concrete inputs used by counterexamples and witnesses -/

/-- Default scoring parameters at an as-of day of 0. -/
def pDef : FreshSignalParams := { as_of := 0 }

/-- A feature bundle with no evidence at all. -/
def fZero : FreshSignalFeatures :=
  { ticker := "T"
    sc13_count := 0
    sc13_latest_filed_at := none
    insider_buy_value := 0
    insider_sell_value := 0
    insider_buy_count := 0
    insider_sell_count := 0
    insider_latest_event_date := none
    trend := none
    trend_bullish_recent := false
    trend_bearish_recent := false
    volume := none
    volume_spike := false
    context_13f := none
    market := none
    sector := none }

/-- A bundle whose only evidence is a single SC13 filing. -/
def fSc13Only : FreshSignalFeatures :=
  { fZero with sc13_count := 1, sc13_latest_filed_at := some 0 }

/-- A bundle with a 100M discretionary insider sell against a bullish
recent trend: the bearish-divergence setup. -/
def fBearDiv : FreshSignalFeatures :=
  { fZero with insider_sell_value := 100000000, trend_bullish_recent := true }

/-- A bundle with a bearish recent trend and a 1-dollar discretionary
sell. -/
def fTrendBearSell : FreshSignalFeatures :=
  { fZero with insider_sell_value := 1, trend_bearish_recent := true }

/-- Adversarial thresholds: the buy threshold sits below the avoid
threshold. -/
def pC6 : FreshSignalParams :=
  { as_of := 0, buy_score_threshold := 10, avoid_score_threshold := 70 }

/-- A tiny-delta 13F row with no managers and no classification labels. -/
def rowC1a : WhaleDeltaRow :=
  { ticker := "AAA", cusip := "C1", delta_value_usd := 1, total_value_usd := 0
    manager_count := 0, manager_increase_count := 0, manager_decrease_count := 0 }

/-- A trillion-dollar-delta 13F row dominating the magnitude ranking. -/
def rowC1b : WhaleDeltaRow :=
  { ticker := "BBB", cusip := "C2", delta_value_usd := 1000000000000
    total_value_usd := 0, manager_count := 0, manager_increase_count := 0
    manager_decrease_count := 0 }

/-- A single positive-delta 13F row used by the range witness. -/
def rowC1w : WhaleDeltaRow :=
  { ticker := "WWW", cusip := "CW", delta_value_usd := 5, total_value_usd := 0
    manager_count := 0, manager_increase_count := 0, manager_decrease_count := 0 }

/-- A positive-delta row with no metadata whose ticker ends in IV. -/
def rowSPIV : WhaleDeltaRow :=
  { ticker := "SPIV", cusip := "C9", delta_value_usd := 1000000000
    total_value_usd := 0, manager_count := 0, manager_increase_count := 0
    manager_decrease_count := 0 }

/-- An ETF-labelled positive-delta row. -/
def rowEtf : WhaleDeltaRow :=
  { ticker := "QQQQ", cusip := "C8", delta_value_usd := 2000000000
    total_value_usd := 0, manager_count := 0, manager_increase_count := 0
    manager_decrease_count := 0, security_type2 := some "ETF" }

/-- A clean positive-delta row with no metadata and an ordinary ticker. -/
def rowClean : WhaleDeltaRow :=
  { ticker := "ACME", cusip := "C7", delta_value_usd := 7, total_value_usd := 0
    manager_count := 0, manager_increase_count := 0, manager_decrease_count := 0 }

/-- A fresh SC13 filing row for ticker B. -/
def lofB : LofRow :=
  { ticker := some "B"
    source_accession := some "acc1"
    form_type := some "SC 13D"
    filer_name := some "F"
    filed_at := some 0
    accepted_at := none }

/-- Settings with the social listener disabled. -/
def settingsOff : AppSettings :=
  { social_enabled := false
    social_velocity_threshold := 1.5
    social_min_mentions := 0 }

/-- The database of the truncation counterexample. -/
def dbC2 : Db :=
  { largeOwnerFilings := [lofB]
    insiderTxs := []
    priceBars := []
    socialSignals := []
    snapshotRuns := []
    securities := []
    whaleRows := []
    appSettings := settingsOff
    tickerSectorEtfMap := [] }

/-- Parameters with a zero top_n: the ranking keeps no rows at all. -/
def pC2 : FreshSignalParams := { as_of := 0, top_n := 0 }

/-! ## Helper lemmas: rounding and clamping -/

theorem pyRound_intCast {α : Type} [LinearOrderedField α] [FloorRing α] (n : ℤ) :
    pyRound ((n : α)) = n := by
  unfold pyRound
  rw [Int.fract_intCast, Int.floor_intCast]
  norm_num

theorem pyRound_add_int {α : Type} [LinearOrderedField α] [FloorRing α]
    (q : α) (n : ℤ) (hn : n % 2 = 0) : pyRound (q + (n : α)) = pyRound q + n := by
  unfold pyRound
  rw [Int.fract_add_int, Int.floor_add_int]
  have hpar : (⌊q⌋ + n) % 2 = ⌊q⌋ % 2 := by omega
  rw [hpar]
  split_ifs <;> omega

theorem pyRound_mono {α : Type} [LinearOrderedField α] [FloorRing α]
    {x y : α} (h : x ≤ y) : pyRound x ≤ pyRound y := by
  unfold pyRound
  rcases lt_or_eq_of_le (Int.floor_le_floor h) with hf | hf
  · split_ifs <;> omega
  · have hfr : Int.fract x ≤ Int.fract y := by
      unfold Int.fract
      rw [hf]
      linarith
    rw [hf]
    split_ifs <;> first | omega | linarith

theorem pyRound_le_of_le {α : Type} [LinearOrderedField α] [FloorRing α]
    {x : α} {n : ℤ} (h : x ≤ (n : α)) : pyRound x ≤ n := by
  have := pyRound_mono h
  rwa [pyRound_intCast] at this

theorem le_pyRound_of_le {α : Type} [LinearOrderedField α] [FloorRing α]
    {x : α} {n : ℤ} (h : (n : α) ≤ x) : n ≤ pyRound x := by
  have := pyRound_mono h
  rwa [pyRound_intCast] at this

theorem pyRound_eq_of_near {α : Type} [LinearOrderedField α] [FloorRing α]
    {x : α} {n : ℤ} (h1 : (n : α) - 1/2 < x) (h2 : x < (n : α) + 1/2) :
    pyRound x = n := by
  unfold pyRound
  rcases le_or_lt (n : α) x with hc | hc
  · have hfl : ⌊x⌋ = n := by
      rw [Int.floor_eq_iff]
      constructor
      · exact hc
      · calc x < (n : α) + 1/2 := h2
          _ ≤ (n : α) + 1 := by linarith
    have hfr : Int.fract x < 1/2 := by
      unfold Int.fract
      rw [hfl]
      linarith
    rw [if_pos hfr, hfl]
  · have hfl : ⌊x⌋ = n - 1 := by
      rw [Int.floor_eq_iff]
      push_cast
      constructor
      · linarith
      · linarith
    have hfr : 1/2 < Int.fract x := by
      unfold Int.fract
      rw [hfl]
      push_cast
      linarith
    rw [if_neg (by linarith), if_pos hfr, hfl]
    omega

theorem le_clampQ {x lo hi : ℚ} : lo ≤ clampQ x lo hi := le_max_left _ _

theorem clampQ_le {x lo hi : ℚ} (h : lo ≤ hi) : clampQ x lo hi ≤ hi :=
  max_le h (min_le_left _ _)

theorem clampQ_eq_self {x lo hi : ℚ} (h1 : lo ≤ x) (h2 : x ≤ hi) :
    clampQ x lo hi = x := by
  unfold clampQ
  rw [min_eq_right h2, max_eq_right h1]

theorem clampQ_mono {x y lo hi : ℚ} (h : x ≤ y) : clampQ x lo hi ≤ clampQ y lo hi := by
  unfold clampQ
  exact max_le_max le_rfl (min_le_min le_rfl h)

theorem le_clampR {x lo hi : ℝ} : lo ≤ clampR x lo hi := le_max_left _ _

theorem clampR_le {x lo hi : ℝ} (h : lo ≤ hi) : clampR x lo hi ≤ hi :=
  max_le h (min_le_left _ _)

theorem clampR_eq_self {x lo hi : ℝ} (h1 : lo ≤ x) (h2 : x ≤ hi) :
    clampR x lo hi = x := by
  unfold clampR
  rw [min_eq_right h2, max_eq_right h1]

theorem clampR_mono {x y lo hi : ℝ} (h : x ≤ y) : clampR x lo hi ≤ clampR y lo hi := by
  unfold clampR
  exact max_le_max le_rfl (min_le_min le_rfl h)

theorem le_clampInt {x lo hi : ℤ} : lo ≤ clampInt x lo hi := le_max_left _ _

theorem clampInt_le {x lo hi : ℤ} (h : lo ≤ hi) : clampInt x lo hi ≤ hi :=
  max_le h (min_le_left _ _)

theorem clampInt_eq_self {x lo hi : ℤ} (h1 : lo ≤ x) (h2 : x ≤ hi) :
    clampInt x lo hi = x := by
  unfold clampInt
  rw [min_eq_right h2, max_eq_right h1]

theorem clampInt_mono {x y lo hi : ℤ} (h : x ≤ y) : clampInt x lo hi ≤ clampInt y lo hi := by
  unfold clampInt
  exact max_le_max le_rfl (min_le_min le_rfl h)

theorem pyRoundQ_intCast (n : ℤ) : pyRoundQ ((n : ℚ)) = n := pyRound_intCast n

theorem pyRoundR_intCast (n : ℤ) : pyRoundR ((n : ℝ)) = n := pyRound_intCast n

theorem pyRoundQ_add_two (q : ℚ) : pyRoundQ (q + 2) = pyRoundQ q + 2 := by
  have h := pyRound_add_int (α := ℚ) q 2 (by norm_num)
  have h2 : ((2 : ℤ) : ℚ) = 2 := by norm_num
  rw [h2] at h
  exact h

/-- C10: apply_tech_guardrail_v0 called with tech=None returns the score
unchanged, with ft = 1.0, adj = 0 and the single note "no technical data". -/
theorem c10_guardrail_no_data (s : ℤ) :
    applyTechGuardrailV0 s none =
      ⟨s, s, 1, 0, ["no technical data"]⟩ := rfl

/-- C4: for every integer score and technical snapshot, the guardrail
output equals round(score * ft) + adj clamped to [0, 100], with ft and adj
exactly as the spec states them; with the factor applied, the integer adj
commutes with the rounding. -/
theorem c4_guardrail_formula (s : ℤ) (t : TechSnap) :
    (applyTechGuardrailV0 s (some t)).score_after =
      clampInt (pyRoundQ ((s : ℚ) * claimFt t) + claimAdj t) 0 100 := by
  cases hb : t.bullish <;> cases hn : t.near_support <;>
    cases he : t.extended_up <;> cases hr : t.near_resistance_60d <;>
    cases hsb : t.below_sma200 <;>
    simp only [applyTechGuardrailV0, claimFt, claimAdj, hb, hn, he, hr, hsb,
      Bool.false_and, Bool.true_and, Bool.and_false, Bool.and_true,
      Bool.false_or, Bool.true_or, Bool.or_false, Bool.or_true,
      Bool.not_true, Bool.not_false, Bool.coe_sort_false, Bool.coe_sort_true,
      if_true, if_false, and_true, and_false, true_and, false_and, and_self,
      or_self, not_true, not_false_iff, true_or, or_true, false_or, or_false,
      if_pos, ite_true, ite_false, decide_True, decide_False] <;>
    norm_num <;>
    first
      | rfl
      | rw [pyRoundQ_add_two]
      | (rw [show ((s : ℚ) + -3 : ℚ) = ((s + -3 : ℤ) : ℚ) by push_cast; ring]
         rw [pyRoundQ_intCast]
         rw [pyRoundQ_intCast])

/-- C9: the reasons object produced by score_fresh_signal_v0 stores the
divergence classification under the key "label", never under "type", so
the lookup compute_segments_v0 performs for its divergence risk points
(segDivergenceType, reading reasons["divergence"]["type"]) always yields
the empty string on a fresh-signal result, and the +8 divergence risk
points can never be added for such a row. -/
theorem c9_divergence_key_mismatch (f : FreshSignalFeatures) (p : FreshSignalParams) :
    jSafeGet (scoreFreshSignalV0 f p).reasons ["divergence", "type"] = none ∧
      (jSafeGet (scoreFreshSignalV0 f p).reasons ["divergence", "label"]).isSome = true ∧
      segDivergenceType (scoreFreshSignalV0 f p).reasons = "" :=
  ⟨rfl, rfl, rfl⟩

theorem sortedDedup_nodup (l : List String) : (sortedDedup l).Nodup := by
  unfold sortedDedup
  exact ((List.perm_insertionSort _ _).nodup_iff).mpr (List.nodup_dedup l)

theorem mem_sortedDedup {l : List String} {x : String} :
    x ∈ sortedDedup l ↔ x ∈ l := by
  unfold sortedDedup
  rw [(List.perm_insertionSort _ _).mem_iff, List.mem_dedup]

theorem choosePrimary_mem {cands : List SegmentCandidate} {c : SegmentCandidate}
    (h : choosePrimary cands = some c) : c ∈ cands := by
  unfold choosePrimary at h
  have hperm := List.perm_insertionSort candGe cands
  cases hs : List.insertionSort candGe cands with
  | nil => rw [hs] at h; exact absurd h (by simp)
  | cons top rest =>
    rw [hs] at h hperm
    dsimp only at h
    cases hf : (top :: rest).find? (fun c => c.key == "risk") with
    | none =>
      rw [hf] at h
      have : top = c := by simpa using h
      exact hperm.subset (this ▸ List.mem_cons_self _ _)
    | some rc =>
      rw [hf] at h
      dsimp only at h
      have hrc : rc ∈ top :: rest := List.mem_of_find?_eq_some hf
      split_ifs at h <;> (simp only [Option.some.injEq] at h; subst h)
      · exact hperm.subset hrc
      · exact hperm.subset (List.mem_cons_self _ _)

set_option maxHeartbeats 800000 in
theorem segTickerCandidates_spec {t : String} {fresh recs : Option SnapRec}
    {c : SegmentCandidate} (h : c ∈ segTickerCandidates t fresh recs) :
    c.pick.ticker = t ∧ c.key ∈ segKeys := by
  unfold segTickerCandidates at h
  simp only [List.mem_append] at h
  rcases h with (((h | h) | h) | h) | h <;>
    (repeat' split at h) <;>
    simp only [List.mem_singleton, List.not_mem_nil] at h <;>
    subst h <;>
    exact ⟨rfl, by simp [segKeys]⟩

theorem segAssignment_spec {freshRows recsRows : List SnapRec}
    {pr : String × SegmentCandidate} (h : pr ∈ segAssignment freshRows recsRows) :
    pr.2.pick.ticker = pr.1 ∧ pr.2.key ∈ segKeys := by
  unfold segAssignment at h
  rw [List.mem_filterMap] at h
  obtain ⟨t, _, hmap⟩ := h
  cases hc : choosePrimary (segTickerCandidates t (segLastByTicker freshRows t)
      (segLastByTicker recsRows t)) with
  | none => rw [hc] at hmap; cases hmap
  | some c =>
    rw [hc] at hmap
    simp only [Option.map_some', Option.some.injEq] at hmap
    subst hmap
    have := segTickerCandidates_spec (choosePrimary_mem hc)
    exact ⟨this.1, this.2⟩

theorem filterMap_tag_fst (L : List String)
    (g : String → Option SegmentCandidate) :
    ((L.filterMap (fun t => (g t).map (fun c => (t, c)))).map Prod.fst) =
      L.filter (fun t => (g t).isSome) := by
  induction L with
  | nil => rfl
  | cons a L ih => cases hg : g a <;> simp [List.filterMap_cons, hg, ih]

theorem segAssignment_fst_nodup (freshRows recsRows : List SnapRec) :
    ((segAssignment freshRows recsRows).map Prod.fst).Nodup := by
  unfold segAssignment
  rw [filterMap_tag_fst]
  exact (sortedDedup_nodup _).filter _

theorem eq_snd_of_nodup_fst {A : List (String × SegmentCandidate)}
    (h : (A.map Prod.fst).Nodup) {t : String} {c c' : SegmentCandidate}
    (h1 : (t, c) ∈ A) (h2 : (t, c') ∈ A) : c = c' := by
  induction A with
  | nil => cases h1
  | cons a A ih =>
    rw [List.map_cons, List.nodup_cons] at h
    rcases List.mem_cons.mp h1 with ha1 | ha1 <;>
      rcases List.mem_cons.mp h2 with ha2 | ha2
    · rw [← ha2] at ha1; exact congrArg Prod.snd ha1
    · exfalso
      apply h.1
      have hm : t ∈ A.map Prod.fst := by
        simpa using List.mem_map_of_mem Prod.fst ha2
      rw [← ha1]
      exact hm
    · exfalso
      apply h.1
      have hm : t ∈ A.map Prod.fst := by
        simpa using List.mem_map_of_mem Prod.fst ha1
      rw [← ha2]
      exact hm
    · exact ih h.2 ha1 ha2

theorem segBucket_disjoint {freshRows recsRows : List SnapRec} {k k' : String}
    (hkk : k ≠ k') :
    disjointStr
      ((segBucketCands (segAssignment freshRows recsRows) k).map (fun c => c.pick.ticker))
      ((segBucketCands (segAssignment freshRows recsRows) k').map
        (fun c => c.pick.ticker)) = true := by
  rw [disjointStr, List.all_eq_true]
  intro x hx
  rw [Bool.not_eq_true', Bool.eq_false_iff]
  intro hcon
  have hx' := List.mem_of_elem_eq_true hcon
  rw [List.mem_map] at hx hx'
  obtain ⟨c, hc, hct⟩ := hx
  obtain ⟨c', hc', hct'⟩ := hx'
  unfold segBucketCands at hc hc'
  rw [List.mem_map] at hc hc'
  obtain ⟨pr, hpr, hpr2⟩ := hc
  obtain ⟨pr', hpr', hpr2'⟩ := hc'
  rw [List.mem_filter] at hpr hpr'
  have hs := segAssignment_spec hpr.1
  have hs' := segAssignment_spec hpr'.1
  have ht : pr.1 = x := by rw [← hs.1, hpr2, hct]
  have ht' : pr'.1 = x := by rw [← hs'.1, hpr2', hct']
  have hceq : pr.2 = pr'.2 := by
    apply eq_snd_of_nodup_fst (segAssignment_fst_nodup freshRows recsRows)
      (t := x)
    · rw [← ht]; exact hpr.1
    · rw [← ht']; exact hpr'.1
  apply hkk
  have h1 : pr.2.key = k := by simpa using hpr.2
  have h2 : pr'.2.key = k' := by simpa using hpr'.2
  rw [← h1, ← h2, hceq]

/-- C8: in one segment-classification run, every ticker that receives any
segment is assigned exactly once (the assignment tickers are pairwise
distinct), the assigned bucket key is one of the five declared segments,
and the per-bucket candidate lists claim pairwise disjoint ticker sets --
the ticker is placed only in its primary bucket. -/
theorem c8_segment_exclusivity (freshRows recsRows : List SnapRec) (pps : ℕ) :
    (((computeSegmentsV0 freshRows recsRows pps).assignment).map Prod.fst).Nodup ∧
      ((computeSegmentsV0 freshRows recsRows pps).assignment).all
        (fun pr => segKeys.contains pr.2.key) = true ∧
      pairwiseDisjointStr (segKeys.map (fun k =>
        (segBucketCands ((computeSegmentsV0 freshRows recsRows pps).assignment) k).map
          (fun c => c.pick.ticker))) = true := by
  refine ⟨segAssignment_fst_nodup freshRows recsRows, ?_, ?_⟩
  · rw [List.all_eq_true]
    intro pr hpr
    exact List.elem_eq_true_of_mem (segAssignment_spec hpr).2
  · show pairwiseDisjointStr (segKeys.map _) = true
    simp only [segKeys, List.map_cons, List.map_nil, pairwiseDisjointStr,
      List.all_cons, List.all_nil, Bool.and_eq_true, Bool.and_true, and_true]
    refine ⟨⟨?_, ?_, ?_, ?_⟩, ⟨?_, ?_, ?_⟩, ⟨?_, ?_⟩, ?_⟩ <;>
      exact segBucket_disjoint (by decide)

theorem clampR_eq_hi {x lo hi : ℝ} (h1 : hi ≤ x) (h2 : lo ≤ hi) :
    clampR x lo hi = hi := by
  unfold clampR
  rw [min_eq_left h1, max_eq_right h2]

theorem netComponent_nonneg (n : ℚ) : 0 ≤ netComponent n := by
  unfold netComponent
  have h := @le_clampR (netMag n) 0 1
  linarith

theorem netComponent_le (n : ℚ) : netComponent n ≤ 25 := by
  unfold netComponent
  have h := @clampR_le (netMag n) 0 1 (by norm_num)
  linarith

theorem netSigned_bounds (n : ℚ) : -25 ≤ netSigned n ∧ netSigned n ≤ 25 := by
  unfold netSigned
  have h1 := netComponent_nonneg n
  have h2 := netComponent_le n
  split_ifs <;> constructor <;> linarith

theorem freshScoreRounded_range (f : FreshSignalFeatures) :
    0 ≤ freshScoreRounded f ∧ freshScoreRounded f ≤ 100 := by
  unfold freshScoreRounded
  constructor
  · apply le_pyRound_of_le
    have h := @le_clampR (freshBaseScore f) 0 100
    exact_mod_cast h
  · apply pyRound_le_of_le
    have h := @clampR_le (freshBaseScore f) 0 100 (by norm_num)
    exact_mod_cast h

theorem guardrail_after_range (s : ℤ) (tech : Option TechSnap)
    (h0 : 0 ≤ s) (h1 : s ≤ 100) :
    0 ≤ (applyTechGuardrailV0 s tech).score_after ∧
      (applyTechGuardrailV0 s tech).score_after ≤ 100 := by
  cases tech with
  | none => exact ⟨h0, h1⟩
  | some t =>
    constructor
    · exact le_clampInt
    · exact clampInt_le (by norm_num)

theorem freshScoreClustered_range (f : FreshSignalFeatures) (p : FreshSignalParams) :
    0 ≤ freshScoreClustered f p ∧ freshScoreClustered f p ≤ 100 := by
  unfold freshScoreClustered
  have hg := guardrail_after_range (freshScoreRounded f) f.trend
    (freshScoreRounded_range f).1 (freshScoreRounded_range f).2
  split_ifs
  · constructor
    · apply le_pyRound_of_le
      have h := @le_clampQ (((applyTechGuardrailV0 (freshScoreRounded f)
        f.trend).score_after : ℚ) + 5) 0 100
      exact_mod_cast h
    · apply pyRound_le_of_le
      have h := @clampQ_le (((applyTechGuardrailV0 (freshScoreRounded f)
        f.trend).score_after : ℚ) + 5) 0 100 (by norm_num)
      exact_mod_cast h
  · exact hg

theorem freshScoreFinal_range (f : FreshSignalFeatures) (p : FreshSignalParams) :
    0 ≤ freshScoreFinal f p ∧ freshScoreFinal f p ≤ 100 := by
  unfold freshScoreFinal
  have hc := freshScoreClustered_range f p
  dsimp only
  split_ifs
  · constructor
    · apply le_pyRound_of_le
      have h := @le_clampQ (((freshScoreClustered f p +
        (freshDivergence f).score_adj : ℤ) : ℚ)) 0 100
      exact_mod_cast h
    · apply pyRound_le_of_le
      have h := @clampQ_le (((freshScoreClustered f p +
        (freshDivergence f).score_adj : ℤ) : ℚ)) 0 100 (by norm_num)
      exact_mod_cast h
  · exact hc

theorem mem_scoreRecs {rows : List WhaleDeltaRow} {cov : Option ℚ} {n : ℕ}
    {r : RecommendationRow} (h : r ∈ scoreRecommendationsFrom13f rows cov n) :
    ∃ r', r = recsRowOf cov (List.insertionSort absDeltaGe (recsFiltered rows)) r' := by
  unfold scoreRecommendationsFrom13f at h
  dsimp only at h
  split_ifs at h
  · exact absurd h (List.not_mem_nil r)
  · have h1 := List.mem_of_mem_take h
    have h2 := (List.perm_insertionSort recRowGe _).mem_iff.mp h1
    rw [List.mem_map] at h2
    obtain ⟨r', _, heq⟩ := h2
    exact ⟨r', heq.symm⟩

theorem recsRowOf_range (cov : Option ℚ) (sorted : List WhaleDeltaRow)
    (r : WhaleDeltaRow) :
    0 ≤ (recsRowOf cov sorted r).score ∧ (recsRowOf cov sorted r).score ≤ 100 ∧
      (0.05 : ℝ) ≤ (recsRowOf cov sorted r).confidence ∧
      (recsRowOf cov sorted r).confidence ≤ (0.90 : ℝ) := by
  unfold recsRowOf
  dsimp only
  refine ⟨?_, ?_, ?_, ?_⟩
  · apply le_pyRound_of_le
    exact_mod_cast le_clampR
  · apply pyRound_le_of_le
    exact_mod_cast clampR_le (by norm_num)
  · exact le_clampR
  · calc clampR _ (0.05 : ℝ) (0.65 : ℝ) ≤ (0.65 : ℝ) := clampR_le (by norm_num)
      _ ≤ (0.90 : ℝ) := by norm_num

/-- C1 (amended): every fresh-signal result has an integer score in
[0, 100] and a confidence in [0.10, 0.90]; every 13F recommendation has an
integer score in [0, 100] and a confidence in [0.05, 0.90] -- the 13F
scorer clamps its confidence to [0.05, 0.65], so the 0.10 floor of the
fresh path does not hold on the institutional path. -/
theorem c1_amended_range_invariants :
    (∀ (f : FreshSignalFeatures) (p : FreshSignalParams),
        0 ≤ (scoreFreshSignalV0 f p).score ∧ (scoreFreshSignalV0 f p).score ≤ 100 ∧
          (0.10 : ℚ) ≤ (scoreFreshSignalV0 f p).confidence ∧
          (scoreFreshSignalV0 f p).confidence ≤ (0.90 : ℚ)) ∧
      (∀ (rows : List WhaleDeltaRow) (cov : Option ℚ) (n : ℕ) (r : RecommendationRow),
        r ∈ scoreRecommendationsFrom13f rows cov n →
          0 ≤ r.score ∧ r.score ≤ 100 ∧
            (0.05 : ℝ) ≤ r.confidence ∧ r.confidence ≤ (0.90 : ℝ)) := by
  constructor
  · intro f p
    refine ⟨(freshScoreFinal_range f p).1, (freshScoreFinal_range f p).2, ?_, ?_⟩
    · exact le_clampQ
    · exact clampQ_le (by norm_num)
  · intro rows cov n r h
    obtain ⟨r', heq⟩ := mem_scoreRecs h
    rw [heq]
    exact recsRowOf_range cov _ r'

theorem c1_amended_range_invariants_witness :
    (recsRowOf none (List.insertionSort absDeltaGe (recsFiltered [rowC1w])) rowC1w)
        ∈ scoreRecommendationsFrom13f [rowC1w] none 20 ∧
      (0.05 : ℝ) ≤ (recsRowOf none (List.insertionSort absDeltaGe
        (recsFiltered [rowC1w])) rowC1w).confidence ∧
      (0.10 : ℚ) ≤ (scoreFreshSignalV0 fZero pDef).confidence := by
  have hmem : (recsRowOf none (List.insertionSort absDeltaGe (recsFiltered [rowC1w]))
      rowC1w) ∈ scoreRecommendationsFrom13f [rowC1w] none 20 := by
    rw [show scoreRecommendationsFrom13f [rowC1w] none 20 =
      [recsRowOf none (List.insertionSort absDeltaGe (recsFiltered [rowC1w])) rowC1w]
      from rfl]
    exact List.mem_singleton.mpr rfl
  refine ⟨hmem, ?_, ?_⟩
  · exact ((c1_amended_range_invariants.2 [rowC1w] none 20 _ hmem).2.2).1
  · exact ((c1_amended_range_invariants.1 fZero pDef).2.2).1

theorem c1_sorted_pair :
    List.insertionSort absDeltaGe [rowC1a, rowC1b] = [rowC1b, rowC1a] := rfl

/-- C1 counterexample: with two no-metadata candidate rows, a zero mapping
coverage and a trillion-dollar competing delta, the small-delta row's 13F
confidence is 0.05 + 2e-13, strictly below the claimed 0.10 floor. -/
theorem c1_confidence_counterexample :
    ¬ (∀ r ∈ scoreRecommendationsFrom13f [rowC1a, rowC1b] (some 0) 20,
        (1/10 : ℝ) ≤ r.confidence ∧ r.confidence ≤ (9/10 : ℝ)) := by
  intro hall
  have hmem : recsRowOf (some 0) (List.insertionSort absDeltaGe [rowC1a, rowC1b])
      rowC1a ∈ scoreRecommendationsFrom13f [rowC1a, rowC1b] (some 0) 20 := by
    rw [show scoreRecommendationsFrom13f [rowC1a, rowC1b] (some 0) 20 =
      (List.insertionSort recRowGe
        [recsRowOf (some 0) (List.insertionSort absDeltaGe [rowC1a, rowC1b]) rowC1a,
         recsRowOf (some 0) (List.insertionSort absDeltaGe [rowC1a, rowC1b]) rowC1b]).take
        20 from rfl]
    rw [List.take_of_length_le]
    · exact (List.perm_insertionSort recRowGe _).mem_iff.mpr (by simp)
    · rw [(List.perm_insertionSort recRowGe _).length_eq]
      norm_num
  have hconf : (recsRowOf (some 0) (List.insertionSort absDeltaGe [rowC1a, rowC1b])
      rowC1a).confidence < (1/10 : ℝ) := by
    unfold recsRowOf
    dsimp only
    rw [c1_sorted_pair]
    norm_num [rowC1a, rowC1b, Real.log_one, clampR, clampQ]
  exact absurd (hall _ hmem).1 (not_le.mpr hconf)

/-- C7 counterexample: a positive-delta row with no classification
metadata at all is nevertheless excluded from the candidate set because
its ticker ends in IV (the _looks_like_etf_or_fund heuristic). -/
theorem c7_candidate_filter_counterexample :
    0 < rowSPIV.delta_value_usd ∧ claimNoMetadata rowSPIV ∧
      recsCandidate rowSPIV = false ∧ recsFiltered [rowSPIV] = [] := by
  refine ⟨by norm_num [rowSPIV], ⟨rfl, rfl, rfl⟩, by decide, rfl⟩

/-- C7 (amended): every row whose provider metadata labels it ETF, fund or
unit is excluded from the candidate set regardless of delta magnitude, and
every positive-delta row with no classification metadata is admitted
unless its ticker is empty or its upper-cased ticker ends in "IV" (the
_looks_like_etf_or_fund heuristic). -/
theorem c7_amended_candidate_filter (r : WhaleDeltaRow) :
    (claimLabeledEtfFundUnit r → recsCandidate r = false) ∧
      (claimNoMetadata r → 0 < r.delta_value_usd → r.ticker ≠ "" →
        looksLikeEtfOrFund r.ticker = false → recsCandidate r = true) := by
  constructor
  · intro hlab
    have hiseq : isEquity r = false := by
      unfold isEquity
      rcases hlab with h | h | h | h | h <;>
        (dsimp only; split_ifs <;> first | rfl | simp_all)
    unfold recsCandidate
    rw [hiseq]
    simp
  · intro hmeta hdelta ht hlooks
    obtain ⟨hm, hs, hs2⟩ := hmeta
    have hiseq : isEquity r = true := by
      unfold isEquity
      rw [hm, hs, hs2]
      norm_num
      exact ⟨by decide, by decide, by decide⟩
    unfold recsCandidate
    rw [hiseq, hlooks]
    simp [ht, hdelta]

theorem c7_amended_candidate_filter_witness :
    claimLabeledEtfFundUnit rowEtf ∧ recsCandidate rowEtf = false ∧
      claimNoMetadata rowClean ∧ 0 < rowClean.delta_value_usd ∧
      rowClean.ticker ≠ "" ∧ looksLikeEtfOrFund rowClean.ticker = false ∧
      recsCandidate rowClean = true := by
  have hlab : claimLabeledEtfFundUnit rowEtf := Or.inr (Or.inl (by decide))
  refine ⟨hlab, (c7_amended_candidate_filter rowEtf).1 hlab, ⟨rfl, rfl, rfl⟩,
    by norm_num [rowClean], by decide, by decide, ?_⟩
  exact (c7_amended_candidate_filter rowClean).2 ⟨rfl, rfl, rfl⟩
    (by norm_num [rowClean]) (by decide) (by decide)

theorem log101_pos : 0 < Real.log (1 + 100) := by
  apply Real.log_pos
  norm_num

theorem netMag_nonneg (n : ℚ) : 0 ≤ netMag n := by
  unfold netMag
  apply div_nonneg
  · apply Real.log_nonneg
    have h : 0 ≤ |((n : ℚ) : ℝ)| / 1000000 := by positivity
    linarith
  · exact le_of_lt log101_pos

theorem netMag_le_one {n : ℚ} (h : |n| ≤ 100000000) : netMag n ≤ 1 := by
  unfold netMag
  rw [div_le_one log101_pos]
  apply Real.log_le_log (by positivity)
  have hc : |((n : ℚ) : ℝ)| ≤ 100000000 := by
    rw [← Rat.cast_abs]
    exact_mod_cast h
  linarith

theorem netMag_zero : netMag 0 = 0 := by
  unfold netMag
  norm_num

theorem netMag_lt_of_abs_lt {n1 n2 : ℚ} (h : |n1| < |n2|) : netMag n1 < netMag n2 := by
  unfold netMag
  rw [div_lt_div_iff_of_pos_right log101_pos]
  apply Real.log_lt_log (by positivity)
  have hc : |((n1 : ℚ) : ℝ)| < |((n2 : ℚ) : ℝ)| := by
    rw [← Rat.cast_abs, ← Rat.cast_abs]
    exact_mod_cast h
  linarith

theorem netComponent_eq_of_le {n : ℚ} (h : |n| ≤ 100000000) :
    netComponent n = 25 * netMag n := by
  unfold netComponent
  rw [clampR_eq_self (netMag_nonneg n) (netMag_le_one h)]

theorem netComponent_pos_of {n : ℚ} (h0 : n ≠ 0) (h : |n| ≤ 100000000) :
    0 < netComponent n := by
  rw [netComponent_eq_of_le h]
  have hm : netMag 0 < netMag n := netMag_lt_of_abs_lt (by
    rw [abs_zero]
    exact abs_pos.mpr h0)
  rw [netMag_zero] at hm
  linarith

theorem netComponent_lt_of {n1 n2 : ℚ} (h : |n1| < |n2|) (h2 : |n2| ≤ 100000000) :
    netComponent n1 < netComponent n2 := by
  rw [netComponent_eq_of_le (le_of_lt (lt_of_lt_of_le h h2)), netComponent_eq_of_le h2]
  have := netMag_lt_of_abs_lt h
  linarith

theorem netSigned_strictMonoOn {n1 n2 : ℚ} (h : n1 < n2)
    (h1 : -100000000 ≤ n1) (h2 : n2 ≤ 100000000) :
    netSigned n1 < netSigned n2 := by
  unfold netSigned
  rcases lt_trichotomy n1 0 with hn1 | hn1 | hn1 <;>
    rcases lt_trichotomy n2 0 with hn2 | hn2 | hn2 <;>
    try linarith
  · -- both negative
    rw [if_neg (by linarith), if_pos hn1, if_neg (by linarith), if_pos hn2]
    have habs : |n2| < |n1| := by
      rw [abs_of_neg hn1, abs_of_neg hn2]
      linarith
    have hb1 : |n1| ≤ 100000000 := by
      rw [abs_of_neg hn1]
      linarith
    have := netComponent_lt_of habs hb1
    linarith
  · -- n1 negative, n2 zero
    subst hn2
    rw [if_neg (by linarith), if_pos hn1, if_neg (by norm_num), if_neg (by norm_num)]
    have hb1 : |n1| ≤ 100000000 := by
      rw [abs_of_neg hn1]
      linarith
    have := netComponent_pos_of (by linarith) hb1
    linarith
  · -- n1 negative, n2 positive
    rw [if_neg (by linarith), if_pos hn1, if_pos hn2]
    have hb1 : |n1| ≤ 100000000 := by
      rw [abs_of_neg hn1]
      linarith
    have hb2 : |n2| ≤ 100000000 := by
      rw [abs_of_pos hn2]
      linarith
    have hp1 := netComponent_pos_of (by linarith) hb1
    have hp2 := netComponent_pos_of (by linarith) hb2
    linarith
  · -- n1 zero, n2 positive
    subst hn1
    rw [if_neg (by norm_num), if_neg (by norm_num), if_pos hn2]
    have hb2 : |n2| ≤ 100000000 := by
      rw [abs_of_pos hn2]
      linarith
    exact netComponent_pos_of (by linarith) hb2
  · -- both positive
    rw [if_pos hn1, if_pos hn2]
    apply netComponent_lt_of
    · rw [abs_of_pos hn1, abs_of_pos hn2]
      exact h
    · rw [abs_of_pos hn2]
      linarith

theorem netOf_updateBuy (f : FreshSignalFeatures) (b : ℚ) :
    netOf (updateBuy f b) = (b - f.insider_sell_value) +
      (0.20 : ℚ) * (f.insider_buy_value_10b5 - f.insider_sell_value_10b5) := rfl

/-- C3 (amended): holding all else fixed, strictly increasing the
discretionary insider buy value strictly increases the signed
log-compressed net component while the net value stays within the
saturation band of 100M dollars in magnitude; the end-to-end integer
score is not strictly monotone (see the counterexample: rounding and the
divergence-label change can even lower it by a point). -/
theorem c3_amended_net_component_monotone (f : FreshSignalFeatures) (b1 b2 : ℚ)
    (hb : b1 < b2) (hlo : (-100000000 : ℚ) ≤ netOf (updateBuy f b1))
    (hhi : netOf (updateBuy f b2) ≤ 100000000) :
    netSigned (netOf (updateBuy f b1)) < netSigned (netOf (updateBuy f b2)) := by
  apply netSigned_strictMonoOn _ hlo hhi
  rw [netOf_updateBuy, netOf_updateBuy]
  linarith

theorem c3_amended_net_component_monotone_witness :
    (0 : ℚ) < 100000000 ∧ (-100000000 : ℚ) ≤ netOf (updateBuy fZero 0) ∧
      netOf (updateBuy fZero 100000000) ≤ 100000000 ∧
      netSigned (netOf (updateBuy fZero 0)) <
        netSigned (netOf (updateBuy fZero 100000000)) := by
  have h1 : (0 : ℚ) < 100000000 := by norm_num
  have h2 : (-100000000 : ℚ) ≤ netOf (updateBuy fZero 0) := by
    rw [netOf_updateBuy]
    norm_num [fZero]
  have h3 : netOf (updateBuy fZero 100000000) ≤ 100000000 := by
    rw [netOf_updateBuy]
    norm_num [fZero]
  exact ⟨h1, h2, h3, c3_amended_net_component_monotone fZero 0 100000000 h1 h2 h3⟩

theorem netSigned_zero : netSigned 0 = 0 := by
  unfold netSigned
  norm_num

theorem divergenceOf_trend_neutral (d : String) (c : ℤ) :
    divergenceOf d "neutral" c = ⟨"none", "signals are neutral/mixed", 0, 0⟩ := by
  unfold divergenceOf
  have h1 : ¬("neutral" = "bearish") := by decide
  have h2 : ¬("neutral" = "bullish") := by decide
  split_ifs with ha hb hc hd
  · exact absurd ha.2 h1
  · exact absurd hb.2 h2
  · exact absurd hc.2 h1
  · exact absurd hd.2 hd.1
  · rfl

theorem divergenceOf_ins_neutral (td : String) (c : ℤ) (hc : c ≤ 0) :
    divergenceOf "neutral" td c = ⟨"none", "signals are neutral/mixed", 0, 0⟩ := by
  unfold divergenceOf
  have h1 : ¬("neutral" = "bullish") := by decide
  have h2 : ¬("neutral" = "bearish") := by decide
  split_ifs with ha hb hcc hd
  · exact absurd ha.1 h1
  · exact absurd hb.1 h2
  · exact absurd hcc.1 (by omega)
  · exact absurd rfl hd.1
  · rfl

theorem fSc13Only_net : netOf fSc13Only = 0 := by
  norm_num [netOf, fSc13Only, fZero]

theorem fSc13Only_base : freshBaseScore fSc13Only = 100 := by
  unfold freshBaseScore
  rw [fSc13Only_net, netSigned_zero]
  norm_num [sc13Component, trendComponent, volumeComponent, ctx13fComponent,
    marketScoreAdj, sectorScoreAdj, socialAdj, fSc13Only, fZero, min_def]

theorem fSc13Only_rounded : freshScoreRounded fSc13Only = 100 := by
  unfold freshScoreRounded
  rw [fSc13Only_base, clampR_eq_hi (by norm_num) (by norm_num)]
  rw [show (100 : ℝ) = ((100 : ℤ) : ℝ) by norm_num]
  exact pyRoundR_intCast 100

theorem fSc13Only_guard : (freshGuardrail fSc13Only).score_after = 100 := by
  unfold freshGuardrail
  rw [fSc13Only_rounded, show fSc13Only.trend = none from rfl]
  rfl

theorem fSc13Only_clustered (p : FreshSignalParams) :
    freshScoreClustered fSc13Only p = 100 := by
  unfold freshScoreClustered
  dsimp only
  rw [if_neg, fSc13Only_guard]
  intro hc
  have h3 := hc.1
  norm_num [fSc13Only, fZero] at h3

theorem fSc13Only_div :
    freshDivergence fSc13Only = ⟨"none", "signals are neutral/mixed", 0, 0⟩ := by
  unfold freshDivergence
  rw [show trendDirOf fSc13Only = "neutral" from rfl]
  exact divergenceOf_trend_neutral _ _

theorem fSc13Only_final (p : FreshSignalParams) : freshScoreFinal fSc13Only p = 100 := by
  unfold freshScoreFinal
  dsimp only
  rw [fSc13Only_div]
  norm_num [fSc13Only_clustered p]

/-- C5 counterexample: a bundle whose only evidence is one SC13 filing
scores exactly 100, refuting the claim that a single active component
always leaves the score strictly below 100. -/
theorem c5_single_component_counterexample :
    onlySc13 fSc13Only ∧ (scoreFreshSignalV0 fSc13Only pDef).score = 100 := by
  constructor
  · exact ⟨by norm_num [fSc13Only, fZero], ⟨rfl, rfl, rfl, rfl, rfl⟩,
      ⟨rfl, rfl, rfl⟩, ⟨rfl, rfl, rfl, rfl, rfl⟩⟩
  · exact fSc13Only_final pDef

theorem fBearDiv_net : netOf fBearDiv = -100000000 := by
  norm_num [netOf, fBearDiv, fZero]

theorem netMag_neg1e8 : netMag (-100000000) = 1 := by
  unfold netMag
  rw [show (1 : ℝ) + |((-100000000 : ℚ) : ℝ)| / 1000000 = 1 + 100 by push_cast; norm_num]
  exact div_self (ne_of_gt log101_pos)

theorem netSigned_neg1e8 : netSigned (-100000000 : ℚ) = -25 := by
  unfold netSigned netComponent
  rw [if_neg (by norm_num), if_pos (by norm_num), netMag_neg1e8,
    clampR_eq_self (by norm_num) (by norm_num)]
  norm_num

theorem fBearDiv_base : freshBaseScore fBearDiv = 35 := by
  unfold freshBaseScore
  rw [fBearDiv_net, netSigned_neg1e8]
  norm_num [sc13Component, trendComponent, volumeComponent, ctx13fComponent,
    marketScoreAdj, sectorScoreAdj, socialAdj, fBearDiv, fZero]

theorem fBearDiv_rounded : freshScoreRounded fBearDiv = 35 := by
  unfold freshScoreRounded
  rw [fBearDiv_base, clampR_eq_self (by norm_num) (by norm_num)]
  rw [show (35 : ℝ) = ((35 : ℤ) : ℝ) by norm_num]
  exact pyRoundR_intCast 35

theorem fBearDiv_guard : (freshGuardrail fBearDiv).score_after = 35 := by
  unfold freshGuardrail
  rw [fBearDiv_rounded, show fBearDiv.trend = none from rfl]
  rfl

theorem fBearDiv_clustered (p : FreshSignalParams) :
    freshScoreClustered fBearDiv p = 35 := by
  unfold freshScoreClustered
  dsimp only
  rw [if_neg, fBearDiv_guard]
  intro hc
  have h3 := hc.1
  norm_num [fBearDiv, fZero] at h3

theorem fBearDiv_div :
    freshDivergence fBearDiv =
      ⟨"bearish_divergence", "insider selling against bullish trend", -8,
        (-0.08 : ℚ)⟩ := by
  unfold freshDivergence
  rw [fBearDiv_net]
  rw [show insiderDirOf (-100000000 : ℚ) = "bearish" by
    unfold insiderDirOf
    rw [if_neg (by norm_num), if_pos (by norm_num)]]
  rw [show trendDirOf fBearDiv = "bullish" from rfl]
  unfold divergenceOf
  rw [if_neg (by decide), if_pos (by decide)]

theorem fBearDiv_final (p : FreshSignalParams) : freshScoreFinal fBearDiv p = 27 := by
  unfold freshScoreFinal
  dsimp only
  rw [fBearDiv_div, fBearDiv_clustered p]
  rw [if_pos (by norm_num)]
  rw [show ((35 + DivergenceInfo.score_adj
      ⟨"bearish_divergence", "insider selling against bullish trend", -8,
        (-0.08 : ℚ)⟩ : ℤ) : ℚ) = ((27 : ℤ) : ℚ) by norm_num]
  rw [show ((27 : ℤ) : ℚ) = (27 : ℚ) by norm_num]
  rw [clampQ_eq_self (by norm_num) (by norm_num)]
  rw [show (27 : ℚ) = ((27 : ℤ) : ℚ) by norm_num]
  exact pyRoundQ_intCast 27

theorem fBearDiv_hasFresh (p : FreshSignalParams)
    (hmin : p.insider_min_value ≤ 100000000) : hasFreshEvent fBearDiv p = true := by
  simp only [hasFreshEvent, Bool.or_eq_true, decide_eq_true_eq]
  left
  left
  right
  show p.insider_min_value ≤ fBearDiv.insider_sell_value
  rw [show fBearDiv.insider_sell_value = 100000000 from rfl]
  exact hmin

theorem fBearDiv_action_buy : freshAction fBearDiv pC6 = "buy" := by
  unfold freshAction
  dsimp only
  rw [fBearDiv_final pC6]
  rw [if_pos ⟨by norm_num [pC6], fBearDiv_hasFresh pC6 (by norm_num [pC6]),
    Or.inl rfl, Or.inr (Or.inr (Or.inl rfl))⟩]

/-- C6 counterexample: with adversarial thresholds (buy threshold 10 below
the avoid threshold 70), a bearish-divergence bundle lands at score 27,
within 5 points of the avoid threshold, yet the buy branch fires first and
the returned action is "buy", not "avoid". -/
theorem c6_forced_avoid_counterexample :
    (freshDivergence fBearDiv).label = "bearish_divergence" ∧
      (scoreFreshSignalV0 fBearDiv pC6).score ≤ pC6.avoid_score_threshold + 5 ∧
      (scoreFreshSignalV0 fBearDiv pC6).action = "buy" := by
  refine ⟨?_, ?_, ?_⟩
  · rw [fBearDiv_div]
  · show freshScoreFinal fBearDiv pC6 ≤ pC6.avoid_score_threshold + 5
    rw [fBearDiv_final pC6]
    norm_num [pC6]
  · exact fBearDiv_action_buy

/-- C6 (amended): whenever the divergence is classified bearish_divergence
and the final score is at most avoid_score_threshold + 5, the action is
forced to "avoid", provided avoid_score_threshold + 5 is below
buy_score_threshold (true for the defaults 35 and 75) so that the
earlier buy branch cannot fire. -/
theorem c6_amended_forced_avoid (f : FreshSignalFeatures) (p : FreshSignalParams)
    (hthr : p.avoid_score_threshold + 5 < p.buy_score_threshold)
    (hlab : (freshDivergence f).label = "bearish_divergence")
    (hscore : (scoreFreshSignalV0 f p).score ≤ p.avoid_score_threshold + 5) :
    (scoreFreshSignalV0 f p).action = "avoid" := by
  have hscore' : freshScoreFinal f p ≤ p.avoid_score_threshold + 5 := hscore
  show freshAction f p = "avoid"
  unfold freshAction
  dsimp only
  rw [if_neg]
  · split_ifs with h2 h3
    · rfl
    · rfl
    · exact absurd ⟨hlab, hscore'⟩ h3
  · intro hc
    have hb := hc.1
    omega

theorem c6_amended_forced_avoid_witness :
    pDef.avoid_score_threshold + 5 < pDef.buy_score_threshold ∧
      (freshDivergence fBearDiv).label = "bearish_divergence" ∧
      (scoreFreshSignalV0 fBearDiv pDef).score ≤ pDef.avoid_score_threshold + 5 ∧
      (scoreFreshSignalV0 fBearDiv pDef).action = "avoid" := by
  have h1 : pDef.avoid_score_threshold + 5 < pDef.buy_score_threshold := by
    norm_num [pDef]
  have h2 : (freshDivergence fBearDiv).label = "bearish_divergence" := by
    rw [fBearDiv_div]
  have h3 : (scoreFreshSignalV0 fBearDiv pDef).score ≤
      pDef.avoid_score_threshold + 5 := by
    show freshScoreFinal fBearDiv pDef ≤ pDef.avoid_score_threshold + 5
    rw [fBearDiv_final pDef]
    norm_num [pDef]
  exact ⟨h1, h2, h3, c6_amended_forced_avoid fBearDiv pDef h1 h2 h3⟩

theorem log101_gt_one : 1 < Real.log (1 + 100) := by
  rw [show ((1 : ℝ) + 100) = 101 by norm_num]
  rw [Real.lt_log_iff_exp_lt (by norm_num)]
  calc Real.exp 1 < 2.7182818286 := Real.exp_one_lt_d9
    _ < 101 := by norm_num

theorem netMag_pos {n : ℚ} (hn : n ≠ 0) : 0 < netMag n := by
  unfold netMag
  apply div_pos _ log101_pos
  apply Real.log_pos
  have h0 : (0 : ℝ) < |((n : ℚ) : ℝ)| := by
    rw [abs_pos]
    exact_mod_cast hn
  linarith

theorem netMag_lt_small {n : ℚ} (h : |n| ≤ 1) : netMag n < 1/50 := by
  unfold netMag
  have habs : |((n : ℚ) : ℝ)| ≤ 1 := by
    rw [← Rat.cast_abs]
    exact_mod_cast h
  have habs0 : (0 : ℝ) ≤ |((n : ℚ) : ℝ)| := abs_nonneg _
  have hnum : Real.log (1 + |((n : ℚ) : ℝ)| / 1000000) ≤ |((n : ℚ) : ℝ)| / 1000000 := by
    have hlog := Real.log_le_sub_one_of_pos
      (x := 1 + |((n : ℚ) : ℝ)| / 1000000) (by positivity)
    linarith
  have hnum2 : Real.log (1 + |((n : ℚ) : ℝ)| / 1000000) ≤ 1/1000000 := by
    linarith
  have hden := log101_gt_one
  rw [div_lt_iff₀ log101_pos]
  have h3 : (1 : ℝ)/50 * 1 ≤ 1/50 * Real.log (1 + 100) :=
    mul_le_mul_of_nonneg_left (le_of_lt hden) (by norm_num)
  linarith

theorem tbs0_net : netOf (updateBuy fTrendBearSell 0) = -1 := by
  norm_num [netOf, updateBuy, fTrendBearSell, fZero]

theorem tbs0_signed_bounds : -(1/2 : ℝ) < netSigned (-1) ∧ netSigned (-1) < 0 := by
  unfold netSigned
  rw [if_neg (by norm_num), if_pos (by norm_num)]
  rw [netComponent_eq_of_le (by norm_num)]
  have h1 : 0 < netMag (-1) := netMag_pos (by norm_num)
  have h2 : netMag (-1) < 1/50 := netMag_lt_small (by norm_num)
  constructor <;> linarith

theorem tbs0_base : freshBaseScore (updateBuy fTrendBearSell 0) = 40 + netSigned (-1) := by
  unfold freshBaseScore
  rw [tbs0_net]
  norm_num [sc13Component, trendComponent, volumeComponent, ctx13fComponent,
    marketScoreAdj, sectorScoreAdj, socialAdj, updateBuy, fTrendBearSell, fZero]
  ring

theorem tbs0_rounded : freshScoreRounded (updateBuy fTrendBearSell 0) = 40 := by
  unfold freshScoreRounded
  obtain ⟨h1, h2⟩ := tbs0_signed_bounds
  rw [tbs0_base, clampR_eq_self (by linarith) (by linarith)]
  unfold pyRoundR
  apply pyRound_eq_of_near
  · push_cast
    linarith
  · push_cast
    linarith

theorem tbs0_guard : (freshGuardrail (updateBuy fTrendBearSell 0)).score_after = 40 := by
  unfold freshGuardrail
  rw [tbs0_rounded, show (updateBuy fTrendBearSell 0).trend = none from rfl]
  rfl

theorem tbs0_clustered (p : FreshSignalParams) :
    freshScoreClustered (updateBuy fTrendBearSell 0) p = 40 := by
  unfold freshScoreClustered
  dsimp only
  rw [if_neg, tbs0_guard]
  intro hc
  have h3 := hc.1
  norm_num [updateBuy, fTrendBearSell, fZero] at h3

theorem tbs0_div :
    freshDivergence (updateBuy fTrendBearSell 0) =
      ⟨"alignment", "insider flow and trend are aligned", 1, (0.02 : ℚ)⟩ := by
  unfold freshDivergence
  rw [tbs0_net]
  rw [show insiderDirOf (-1 : ℚ) = "bearish" by
    unfold insiderDirOf
    rw [if_neg (by norm_num), if_pos (by norm_num)]]
  rw [show trendDirOf (updateBuy fTrendBearSell 0) = "bearish" from rfl]
  rw [show (updateBuy fTrendBearSell 0).sc13_count = 0 from rfl]
  unfold divergenceOf
  rw [if_neg (by decide), if_neg (by decide), if_neg (by norm_num), if_pos (by decide)]

theorem tbs0_final (p : FreshSignalParams) :
    freshScoreFinal (updateBuy fTrendBearSell 0) p = 41 := by
  unfold freshScoreFinal
  dsimp only
  rw [tbs0_div, tbs0_clustered p]
  rw [if_pos (by norm_num)]
  rw [show ((40 + DivergenceInfo.score_adj
      ⟨"alignment", "insider flow and trend are aligned", 1, (0.02 : ℚ)⟩ : ℤ) : ℚ) =
      ((41 : ℤ) : ℚ) by norm_num]
  rw [show ((41 : ℤ) : ℚ) = (41 : ℚ) by norm_num]
  rw [clampQ_eq_self (by norm_num) (by norm_num)]
  rw [show (41 : ℚ) = ((41 : ℤ) : ℚ) by norm_num]
  exact pyRoundQ_intCast 41

theorem tbs1_net : netOf (updateBuy fTrendBearSell 1) = 0 := by
  norm_num [netOf, updateBuy, fTrendBearSell, fZero]

theorem tbs1_base : freshBaseScore (updateBuy fTrendBearSell 1) = 40 := by
  unfold freshBaseScore
  rw [tbs1_net, netSigned_zero]
  norm_num [sc13Component, trendComponent, volumeComponent, ctx13fComponent,
    marketScoreAdj, sectorScoreAdj, socialAdj, updateBuy, fTrendBearSell, fZero]

theorem tbs1_rounded : freshScoreRounded (updateBuy fTrendBearSell 1) = 40 := by
  unfold freshScoreRounded
  rw [tbs1_base, clampR_eq_self (by norm_num) (by norm_num)]
  rw [show (40 : ℝ) = ((40 : ℤ) : ℝ) by norm_num]
  exact pyRoundR_intCast 40

theorem tbs1_guard : (freshGuardrail (updateBuy fTrendBearSell 1)).score_after = 40 := by
  unfold freshGuardrail
  rw [tbs1_rounded, show (updateBuy fTrendBearSell 1).trend = none from rfl]
  rfl

theorem tbs1_clustered (p : FreshSignalParams) :
    freshScoreClustered (updateBuy fTrendBearSell 1) p = 40 := by
  unfold freshScoreClustered
  dsimp only
  rw [if_neg, tbs1_guard]
  intro hc
  have h3 := hc.1
  norm_num [updateBuy, fTrendBearSell, fZero] at h3

theorem tbs1_div :
    freshDivergence (updateBuy fTrendBearSell 1) =
      ⟨"none", "signals are neutral/mixed", 0, 0⟩ := by
  unfold freshDivergence
  rw [tbs1_net]
  rw [show insiderDirOf (0 : ℚ) = "neutral" by
    unfold insiderDirOf
    rw [if_neg (by norm_num), if_neg (by norm_num)]]
  rw [show trendDirOf (updateBuy fTrendBearSell 1) = "bearish" from rfl]
  rw [show (updateBuy fTrendBearSell 1).sc13_count = 0 from rfl]
  exact divergenceOf_ins_neutral "bearish" 0 le_rfl

theorem tbs1_final (p : FreshSignalParams) :
    freshScoreFinal (updateBuy fTrendBearSell 1) p = 40 := by
  unfold freshScoreFinal
  dsimp only
  rw [tbs1_div, tbs1_clustered p]
  rw [if_neg (by norm_num)]

/-- C3 counterexample: raising the discretionary insider buy value from 0
to 1 dollar lowers the final score from 41 to 40 on a bundle with
insider_sell_value = 1 and a recent bearish trend: at buy = 0 the net of
-1 keeps the insider direction bearish, aligned with the bearish trend
(+1 divergence bonus on a rounded 40), while at buy = 1 the net of 0 is
neutral and the bonus disappears; the score is not strictly increasing
in the buy value. -/
theorem c3_monotonicity_counterexample :
    (0 : ℚ) < 1 ∧
      (scoreFreshSignalV0 (updateBuy fTrendBearSell 1) pDef).score <
        (scoreFreshSignalV0 (updateBuy fTrendBearSell 0) pDef).score := by
  refine ⟨by norm_num, ?_⟩
  show freshScoreFinal (updateBuy fTrendBearSell 1) pDef <
    freshScoreFinal (updateBuy fTrendBearSell 0) pDef
  rw [tbs1_final pDef, tbs0_final pDef]
  norm_num

theorem netOf_insiderInactive {f : FreshSignalFeatures} (h : insiderInactive f) :
    netOf f = 0 := by
  obtain ⟨h1, h2, h3, h4, _⟩ := h
  unfold netOf
  rw [h1, h2, h3, h4]
  ring

theorem sc13Component_zero {f : FreshSignalFeatures} (h : f.sc13_count = 0) :
    sc13Component f = 0 := by
  unfold sc13Component
  rw [h]
  norm_num

theorem sc13Component_bounds {f : FreshSignalFeatures} (h : 1 ≤ f.sc13_count) :
    50 ≤ sc13Component f ∧ sc13Component f ≤ 60 := by
  unfold sc13Component
  rw [if_pos (by linarith)]
  have h1 : (1 : ℤ) ≤ min f.sc13_count 3 := le_min h (by norm_num)
  have h2 : min f.sc13_count 3 ≤ 3 := min_le_right _ _
  have h1q : (1 : ℚ) ≤ ((min f.sc13_count 3 : ℤ) : ℚ) := by exact_mod_cast h1
  have h2q : ((min f.sc13_count 3 : ℤ) : ℚ) ≤ 3 := by exact_mod_cast h2
  constructor
  · have h5 : (5 : ℚ) ≤ 5 * ((min f.sc13_count 3 : ℤ) : ℚ) := by linarith
    have hmin : (5 : ℚ) ≤ min 15 (5 * ((min f.sc13_count 3 : ℤ) : ℚ)) :=
      le_min (by norm_num) h5
    linarith
  · have hmin := min_le_left (15 : ℚ) (5 * ((min f.sc13_count 3 : ℤ) : ℚ))
    linarith

theorem trendComponent_zero {f : FreshSignalFeatures}
    (h1 : f.trend_bullish_recent = false) (h2 : f.trend_bearish_recent = false) :
    trendComponent f = 0 := by
  simp [trendComponent, h1, h2]

theorem trendComponent_bounds (f : FreshSignalFeatures) :
    -10 ≤ trendComponent f ∧ trendComponent f ≤ 10 := by
  unfold trendComponent
  split_ifs <;> norm_num

theorem volumeComponent_zero {f : FreshSignalFeatures}
    (h1 : f.trend_bullish_recent = false) (h2 : f.trend_bearish_recent = false) :
    volumeComponent f = 0 := by
  simp [volumeComponent, h1, h2]

theorem volumeComponent_zero_spike {f : FreshSignalFeatures}
    (h : f.volume_spike = false) : volumeComponent f = 0 := by
  simp [volumeComponent, h]

theorem ctx13fComponent_zero {f : FreshSignalFeatures} (h : f.context_13f = none) :
    ctx13fComponent f = 0 := by
  simp [ctx13fComponent, h]

theorem ctx13fComponent_bounds (f : FreshSignalFeatures) :
    -3 ≤ ctx13fComponent f ∧ ctx13fComponent f ≤ 5 := by
  unfold ctx13fComponent
  rcases f.context_13f with _ | c
  · norm_num
  · dsimp only
    split_ifs <;> norm_num

theorem marketScoreAdj_zero {f : FreshSignalFeatures} (h : f.market = none) :
    marketScoreAdj f = 0 := by
  simp [marketScoreAdj, h]

theorem marketScoreAdj_bounds (f : FreshSignalFeatures) :
    -2 ≤ marketScoreAdj f ∧ marketScoreAdj f ≤ 1 := by
  unfold marketScoreAdj
  rcases f.market with _ | m
  · norm_num
  · dsimp only
    split_ifs <;> norm_num

theorem sectorScoreAdj_zero {f : FreshSignalFeatures} (h : f.sector = none) :
    sectorScoreAdj f = 0 := by
  simp [sectorScoreAdj, h]

theorem sectorScoreAdj_bounds (f : FreshSignalFeatures) :
    -1 ≤ sectorScoreAdj f ∧ sectorScoreAdj f ≤ 1 := by
  unfold sectorScoreAdj
  rcases f.sector with _ | s
  · norm_num
  · dsimp only
    split_ifs <;> norm_num

theorem socialAdj_fst_zero {f : FreshSignalFeatures} (h : f.social = none) :
    (socialAdj f).1 = 0 := by
  simp [socialAdj, h]

theorem socialAdj_fst_bounds (f : FreshSignalFeatures) :
    -4 ≤ (socialAdj f).1 ∧ (socialAdj f).1 ≤ 4 := by
  unfold socialAdj
  rcases f.social with _ | s
  · norm_num
  · dsimp only
    split_ifs <;> norm_num

theorem freshScoreRounded_between {f : FreshSignalFeatures} {lo hi : ℤ}
    (h0 : ((lo : ℤ) : ℝ) ≤ freshBaseScore f) (h1 : freshBaseScore f ≤ ((hi : ℤ) : ℝ))
    (hlo : 0 ≤ lo) (hhi : hi ≤ 100) :
    lo ≤ freshScoreRounded f ∧ freshScoreRounded f ≤ hi := by
  unfold freshScoreRounded
  have hlo' : (0 : ℝ) ≤ freshBaseScore f := by
    have : (0 : ℝ) ≤ ((lo : ℤ) : ℝ) := by exact_mod_cast hlo
    linarith
  have hhi' : freshBaseScore f ≤ 100 := by
    have : ((hi : ℤ) : ℝ) ≤ 100 := by exact_mod_cast hhi
    linarith
  rw [clampR_eq_self hlo' hhi']
  exact ⟨le_pyRound_of_le h0, pyRound_le_of_le h1⟩

theorem clustered_eq_guard {f : FreshSignalFeatures} {p : FreshSignalParams}
    (hcl : f.insider_cluster_buy_insiders = 0) :
    freshScoreClustered f p = (freshGuardrail f).score_after := by
  unfold freshScoreClustered
  dsimp only
  rw [if_neg]
  intro hc
  have h3 := hc.1
  rw [hcl] at h3
  exact absurd h3 (by norm_num)

theorem clustered_bounds {f : FreshSignalFeatures} {p : FreshSignalParams} {lo hi : ℤ}
    (htr : f.trend = none) (h0 : lo ≤ freshScoreRounded f) (h1 : freshScoreRounded f ≤ hi)
    (hlo : 0 ≤ lo) (hhi : hi + 5 ≤ 100) :
    lo ≤ freshScoreClustered f p ∧ freshScoreClustered f p ≤ hi + 5 := by
  have hg : (freshGuardrail f).score_after = freshScoreRounded f := by
    unfold freshGuardrail
    rw [htr]
    rfl
  unfold freshScoreClustered
  dsimp only
  split_ifs
  · rw [hg]
    rw [show ((freshScoreRounded f : ℚ) + 5) = ((freshScoreRounded f + 5 : ℤ) : ℚ) by
      push_cast
      ring]
    rw [clampQ_eq_self (by exact_mod_cast by omega) (by exact_mod_cast by omega)]
    rw [pyRoundQ_intCast]
    omega
  · rw [hg]
    omega

theorem final_eq_clustered_of_trend_calm {f : FreshSignalFeatures} {p : FreshSignalParams}
    (htb : f.trend_bullish_recent = false) (hte : f.trend_bearish_recent = false) :
    freshScoreFinal f p = freshScoreClustered f p := by
  have hd : freshDivergence f = ⟨"none", "signals are neutral/mixed", 0, 0⟩ := by
    unfold freshDivergence
    rw [show trendDirOf f = "neutral" by simp [trendDirOf, htb, hte]]
    exact divergenceOf_trend_neutral _ _
  unfold freshScoreFinal
  dsimp only
  rw [hd]
  rw [if_neg (by norm_num)]

theorem final_eq_clustered_of_ins_neutral {f : FreshSignalFeatures} {p : FreshSignalParams}
    (hnet : netOf f = 0) (hsc : f.sc13_count ≤ 0) :
    freshScoreFinal f p = freshScoreClustered f p := by
  have hd : freshDivergence f = ⟨"none", "signals are neutral/mixed", 0, 0⟩ := by
    unfold freshDivergence
    rw [hnet]
    rw [show insiderDirOf (0 : ℚ) = "neutral" by
      unfold insiderDirOf
      rw [if_neg (by norm_num), if_neg (by norm_num)]]
    exact divergenceOf_ins_neutral _ _ hsc
  unfold freshScoreFinal
  dsimp only
  rw [hd]
  rw [if_neg (by norm_num)]

theorem final_eq_rounded_of_calm {f : FreshSignalFeatures} {p : FreshSignalParams}
    (htn : f.trend = none) (hcl : f.insider_cluster_buy_insiders = 0)
    (htb : f.trend_bullish_recent = false) (hte : f.trend_bearish_recent = false) :
    freshScoreFinal f p = freshScoreRounded f := by
  rw [final_eq_clustered_of_trend_calm htb hte, clustered_eq_guard hcl]
  unfold freshGuardrail
  rw [htn]
  rfl

theorem roundClamp_mid {s : ℤ} {c : ℚ} {d : ℤ} (hs0 : 40 ≤ s) (hs1 : s ≤ 60)
    (hc0 : (0.9 : ℚ) ≤ c) (hc1 : c ≤ 1.05) (hd0 : -3 ≤ d) (hd1 : d ≤ 2) :
    33 ≤ clampInt (pyRoundQ ((s : ℚ) * c + (d : ℚ))) 0 100 ∧
      clampInt (pyRoundQ ((s : ℚ) * c + (d : ℚ))) 0 100 ≤ 65 := by
  unfold pyRoundQ
  have hsq0 : (40 : ℚ) ≤ (s : ℚ) := by exact_mod_cast hs0
  have hsq1 : (s : ℚ) ≤ 60 := by exact_mod_cast hs1
  have hdq0 : (-3 : ℚ) ≤ (d : ℚ) := by exact_mod_cast hd0
  have hdq1 : (d : ℚ) ≤ 2 := by exact_mod_cast hd1
  have hx0 : ((33 : ℤ) : ℚ) ≤ (s : ℚ) * c + (d : ℚ) := by
    push_cast
    nlinarith [mul_nonneg (by linarith : (0 : ℚ) ≤ (s : ℚ) - 40)
      (by linarith : (0 : ℚ) ≤ c - 0.9)]
  have hx1 : (s : ℚ) * c + (d : ℚ) ≤ ((65 : ℤ) : ℚ) := by
    push_cast
    nlinarith [mul_nonneg (by linarith : (0 : ℚ) ≤ 60 - (s : ℚ))
      (by linarith : (0 : ℚ) ≤ 1.05 - c)]
  have hr0 := le_pyRound_of_le hx0
  have hr1 := pyRound_le_of_le hx1
  rw [clampInt_eq_self (by omega) (by omega)]
  exact ⟨hr0, hr1⟩

theorem guardrail_after_mid (s : ℤ) (tech : Option TechSnap)
    (h0 : 40 ≤ s) (h1 : s ≤ 60) :
    33 ≤ (applyTechGuardrailV0 s tech).score_after ∧
      (applyTechGuardrailV0 s tech).score_after ≤ 65 := by
  cases tech with
  | none =>
    show 33 ≤ s ∧ s ≤ 65
    exact ⟨by omega, by omega⟩
  | some t =>
    unfold applyTechGuardrailV0
    dsimp only
    split_ifs <;>
      exact roundClamp_mid h0 h1 (by norm_num) (by norm_num) (by norm_num) (by norm_num)

theorem onlySc13_score (f : FreshSignalFeatures) (p : FreshSignalParams)
    (h : onlySc13 f) : freshScoreFinal f p = 100 := by
  obtain ⟨hsc, hins, htr, hrest⟩ := h
  obtain ⟨htn, htb, hte⟩ := htr
  obtain ⟨hv, hc, hm, hs, hso⟩ := hrest
  have hb := sc13Component_bounds hsc
  have hb0 : (50 : ℝ) ≤ ((sc13Component f : ℚ) : ℝ) := by exact_mod_cast hb.1
  have hbase : (100 : ℝ) ≤ freshBaseScore f := by
    unfold freshBaseScore
    rw [netOf_insiderInactive hins, netSigned_zero, trendComponent_zero htb hte,
      volumeComponent_zero htb hte, ctx13fComponent_zero hc, marketScoreAdj_zero hm,
      sectorScoreAdj_zero hs, socialAdj_fst_zero hso]
    push_cast
    linarith
  have hround : freshScoreRounded f = 100 := by
    unfold freshScoreRounded
    rw [clampR_eq_hi hbase (by norm_num)]
    rw [show (100 : ℝ) = ((100 : ℤ) : ℝ) by norm_num]
    exact pyRoundR_intCast 100
  rw [final_eq_rounded_of_calm htn hins.2.2.2.2 htb hte, hround]

theorem onlyInsider_score (f : FreshSignalFeatures) (p : FreshSignalParams)
    (h : onlyInsider f) : 25 ≤ freshScoreFinal f p ∧ freshScoreFinal f p ≤ 80 := by
  obtain ⟨hsc, hact, htr, hrest⟩ := h
  obtain ⟨htn, htb, hte⟩ := htr
  obtain ⟨hv, hc, hm, hs, hso⟩ := hrest
  have hb := netSigned_bounds (netOf f)
  have hbase0 : ((25 : ℤ) : ℝ) ≤ freshBaseScore f := by
    unfold freshBaseScore
    rw [sc13Component_zero hsc, trendComponent_zero htb hte,
      volumeComponent_zero htb hte, ctx13fComponent_zero hc, marketScoreAdj_zero hm,
      sectorScoreAdj_zero hs, socialAdj_fst_zero hso]
    push_cast
    linarith [hb.1]
  have hbase1 : freshBaseScore f ≤ ((75 : ℤ) : ℝ) := by
    unfold freshBaseScore
    rw [sc13Component_zero hsc, trendComponent_zero htb hte,
      volumeComponent_zero htb hte, ctx13fComponent_zero hc, marketScoreAdj_zero hm,
      sectorScoreAdj_zero hs, socialAdj_fst_zero hso]
    push_cast
    linarith [hb.2]
  have hr := freshScoreRounded_between hbase0 hbase1 (by norm_num) (by norm_num)
  have hcl := clustered_bounds (p := p) htn hr.1 hr.2 (by norm_num) (by norm_num)
  rw [final_eq_clustered_of_trend_calm htb hte]
  exact ⟨hcl.1, hcl.2⟩

theorem onlyTrend_score (f : FreshSignalFeatures) (p : FreshSignalParams)
    (h : onlyTrend f) : 33 ≤ freshScoreFinal f p ∧ freshScoreFinal f p ≤ 65 := by
  obtain ⟨hflag, hsc, hins, hv, hc, hm, hs, hso⟩ := h
  have hnet := netOf_insiderInactive hins
  have hb := trendComponent_bounds f
  have hb0 : (-10 : ℝ) ≤ ((trendComponent f : ℚ) : ℝ) := by exact_mod_cast hb.1
  have hb1 : ((trendComponent f : ℚ) : ℝ) ≤ 10 := by exact_mod_cast hb.2
  have hbase0 : ((40 : ℤ) : ℝ) ≤ freshBaseScore f := by
    unfold freshBaseScore
    rw [hnet, netSigned_zero, sc13Component_zero hsc, volumeComponent_zero_spike hv,
      ctx13fComponent_zero hc, marketScoreAdj_zero hm, sectorScoreAdj_zero hs,
      socialAdj_fst_zero hso]
    push_cast
    linarith
  have hbase1 : freshBaseScore f ≤ ((60 : ℤ) : ℝ) := by
    unfold freshBaseScore
    rw [hnet, netSigned_zero, sc13Component_zero hsc, volumeComponent_zero_spike hv,
      ctx13fComponent_zero hc, marketScoreAdj_zero hm, sectorScoreAdj_zero hs,
      socialAdj_fst_zero hso]
    push_cast
    linarith
  have hr := freshScoreRounded_between hbase0 hbase1 (by norm_num) (by norm_num)
  have hg := guardrail_after_mid (freshScoreRounded f) f.trend hr.1 hr.2
  have hgeq : freshGuardrail f =
      applyTechGuardrailV0 (freshScoreRounded f) f.trend := rfl
  rw [final_eq_clustered_of_ins_neutral hnet (le_of_eq hsc),
    clustered_eq_guard hins.2.2.2.2, hgeq]
  exact hg

theorem onlyVolume_score (f : FreshSignalFeatures) (p : FreshSignalParams)
    (h : onlyVolume f) : freshScoreFinal f p = 50 := by
  obtain ⟨hv, hsc, hins, htr, hc, hm, hs, hso⟩ := h
  obtain ⟨htn, htb, hte⟩ := htr
  have hbase : freshBaseScore f = 50 := by
    unfold freshBaseScore
    rw [netOf_insiderInactive hins, netSigned_zero, sc13Component_zero hsc,
      trendComponent_zero htb hte, volumeComponent_zero htb hte,
      ctx13fComponent_zero hc, marketScoreAdj_zero hm, sectorScoreAdj_zero hs,
      socialAdj_fst_zero hso]
    norm_num
  have hround : freshScoreRounded f = 50 := by
    unfold freshScoreRounded
    rw [hbase, clampR_eq_self (by norm_num) (by norm_num)]
    rw [show (50 : ℝ) = ((50 : ℤ) : ℝ) by norm_num]
    exact pyRoundR_intCast 50
  rw [final_eq_rounded_of_calm htn hins.2.2.2.2 htb hte, hround]

theorem onlyCtx13f_score (f : FreshSignalFeatures) (p : FreshSignalParams)
    (h : onlyCtx13f f) : 47 ≤ freshScoreFinal f p ∧ freshScoreFinal f p ≤ 55 := by
  obtain ⟨hctx, hsc, hins, htr, hv, hm, hs, hso⟩ := h
  obtain ⟨htn, htb, hte⟩ := htr
  have hb := ctx13fComponent_bounds f
  have hb0 : (-3 : ℝ) ≤ ((ctx13fComponent f : ℚ) : ℝ) := by exact_mod_cast hb.1
  have hb1 : ((ctx13fComponent f : ℚ) : ℝ) ≤ 5 := by exact_mod_cast hb.2
  have hbase0 : ((47 : ℤ) : ℝ) ≤ freshBaseScore f := by
    unfold freshBaseScore
    rw [netOf_insiderInactive hins, netSigned_zero, sc13Component_zero hsc,
      trendComponent_zero htb hte, volumeComponent_zero htb hte,
      marketScoreAdj_zero hm, sectorScoreAdj_zero hs, socialAdj_fst_zero hso]
    push_cast
    linarith
  have hbase1 : freshBaseScore f ≤ ((55 : ℤ) : ℝ) := by
    unfold freshBaseScore
    rw [netOf_insiderInactive hins, netSigned_zero, sc13Component_zero hsc,
      trendComponent_zero htb hte, volumeComponent_zero htb hte,
      marketScoreAdj_zero hm, sectorScoreAdj_zero hs, socialAdj_fst_zero hso]
    push_cast
    linarith
  have hr := freshScoreRounded_between hbase0 hbase1 (by norm_num) (by norm_num)
  rw [final_eq_rounded_of_calm htn hins.2.2.2.2 htb hte]
  exact hr

theorem onlyMarket_score (f : FreshSignalFeatures) (p : FreshSignalParams)
    (h : onlyMarket f) : 48 ≤ freshScoreFinal f p ∧ freshScoreFinal f p ≤ 51 := by
  obtain ⟨hmk, hsc, hins, htr, hv, hc, hs, hso⟩ := h
  obtain ⟨htn, htb, hte⟩ := htr
  have hb := marketScoreAdj_bounds f
  have hb0 : (-2 : ℝ) ≤ ((marketScoreAdj f : ℚ) : ℝ) := by exact_mod_cast hb.1
  have hb1 : ((marketScoreAdj f : ℚ) : ℝ) ≤ 1 := by exact_mod_cast hb.2
  have hbase0 : ((48 : ℤ) : ℝ) ≤ freshBaseScore f := by
    unfold freshBaseScore
    rw [netOf_insiderInactive hins, netSigned_zero, sc13Component_zero hsc,
      trendComponent_zero htb hte, volumeComponent_zero htb hte,
      ctx13fComponent_zero hc, sectorScoreAdj_zero hs, socialAdj_fst_zero hso]
    push_cast
    linarith
  have hbase1 : freshBaseScore f ≤ ((51 : ℤ) : ℝ) := by
    unfold freshBaseScore
    rw [netOf_insiderInactive hins, netSigned_zero, sc13Component_zero hsc,
      trendComponent_zero htb hte, volumeComponent_zero htb hte,
      ctx13fComponent_zero hc, sectorScoreAdj_zero hs, socialAdj_fst_zero hso]
    push_cast
    linarith
  have hr := freshScoreRounded_between hbase0 hbase1 (by norm_num) (by norm_num)
  rw [final_eq_rounded_of_calm htn hins.2.2.2.2 htb hte]
  exact hr

theorem onlySector_score (f : FreshSignalFeatures) (p : FreshSignalParams)
    (h : onlySector f) : 49 ≤ freshScoreFinal f p ∧ freshScoreFinal f p ≤ 51 := by
  obtain ⟨hsec, hsc, hins, htr, hv, hc, hm, hso⟩ := h
  obtain ⟨htn, htb, hte⟩ := htr
  have hb := sectorScoreAdj_bounds f
  have hb0 : (-1 : ℝ) ≤ ((sectorScoreAdj f : ℚ) : ℝ) := by exact_mod_cast hb.1
  have hb1 : ((sectorScoreAdj f : ℚ) : ℝ) ≤ 1 := by exact_mod_cast hb.2
  have hbase0 : ((49 : ℤ) : ℝ) ≤ freshBaseScore f := by
    unfold freshBaseScore
    rw [netOf_insiderInactive hins, netSigned_zero, sc13Component_zero hsc,
      trendComponent_zero htb hte, volumeComponent_zero htb hte,
      ctx13fComponent_zero hc, marketScoreAdj_zero hm, socialAdj_fst_zero hso]
    push_cast
    linarith
  have hbase1 : freshBaseScore f ≤ ((51 : ℤ) : ℝ) := by
    unfold freshBaseScore
    rw [netOf_insiderInactive hins, netSigned_zero, sc13Component_zero hsc,
      trendComponent_zero htb hte, volumeComponent_zero htb hte,
      ctx13fComponent_zero hc, marketScoreAdj_zero hm, socialAdj_fst_zero hso]
    push_cast
    linarith
  have hr := freshScoreRounded_between hbase0 hbase1 (by norm_num) (by norm_num)
  rw [final_eq_rounded_of_calm htn hins.2.2.2.2 htb hte]
  exact hr

theorem onlySocial_score (f : FreshSignalFeatures) (p : FreshSignalParams)
    (h : onlySocial f) : 46 ≤ freshScoreFinal f p ∧ freshScoreFinal f p ≤ 54 := by
  obtain ⟨hsoc, hsc, hins, htr, hv, hc, hm, hs⟩ := h
  obtain ⟨htn, htb, hte⟩ := htr
  have hb := socialAdj_fst_bounds f
  have hb0 : (-4 : ℝ) ≤ (((socialAdj f).1 : ℚ) : ℝ) := by exact_mod_cast hb.1
  have hb1 : (((socialAdj f).1 : ℚ) : ℝ) ≤ 4 := by exact_mod_cast hb.2
  have hbase0 : ((46 : ℤ) : ℝ) ≤ freshBaseScore f := by
    unfold freshBaseScore
    rw [netOf_insiderInactive hins, netSigned_zero, sc13Component_zero hsc,
      trendComponent_zero htb hte, volumeComponent_zero htb hte,
      ctx13fComponent_zero hc, marketScoreAdj_zero hm, sectorScoreAdj_zero hs]
    push_cast
    linarith
  have hbase1 : freshBaseScore f ≤ ((54 : ℤ) : ℝ) := by
    unfold freshBaseScore
    rw [netOf_insiderInactive hins, netSigned_zero, sc13Component_zero hsc,
      trendComponent_zero htb hte, volumeComponent_zero htb hte,
      ctx13fComponent_zero hc, marketScoreAdj_zero hm, sectorScoreAdj_zero hs]
    push_cast
    linarith
  have hr := freshScoreRounded_between hbase0 hbase1 (by norm_num) (by norm_num)
  rw [final_eq_rounded_of_calm htn hins.2.2.2.2 htb hte]
  exact hr

/-- C5 (amended): for every feature bundle with exactly one active
evidence component, the score stays in [0, 100], but the SC13 component
alone saturates it: an SC13-only bundle scores exactly 100 (the +45 base
plus at least +5 scaling on top of the neutral 50 hits the clamp), while
each of the other seven single-component bundles yields a score strictly
between 0 and 100. -/
theorem c5_amended_single_component (f : FreshSignalFeatures) (p : FreshSignalParams) :
    (onlySc13 f → (scoreFreshSignalV0 f p).score = 100) ∧
      (onlyInsider f → 0 < (scoreFreshSignalV0 f p).score ∧
        (scoreFreshSignalV0 f p).score < 100) ∧
      (onlyTrend f → 0 < (scoreFreshSignalV0 f p).score ∧
        (scoreFreshSignalV0 f p).score < 100) ∧
      (onlyVolume f → 0 < (scoreFreshSignalV0 f p).score ∧
        (scoreFreshSignalV0 f p).score < 100) ∧
      (onlyCtx13f f → 0 < (scoreFreshSignalV0 f p).score ∧
        (scoreFreshSignalV0 f p).score < 100) ∧
      (onlyMarket f → 0 < (scoreFreshSignalV0 f p).score ∧
        (scoreFreshSignalV0 f p).score < 100) ∧
      (onlySector f → 0 < (scoreFreshSignalV0 f p).score ∧
        (scoreFreshSignalV0 f p).score < 100) ∧
      (onlySocial f → 0 < (scoreFreshSignalV0 f p).score ∧
        (scoreFreshSignalV0 f p).score < 100) := by
  refine ⟨?_, ?_, ?_, ?_, ?_, ?_, ?_, ?_⟩
  · intro h
    exact onlySc13_score f p h
  · intro h
    have hx := onlyInsider_score f p h
    exact ⟨lt_of_lt_of_le (by norm_num) hx.1, lt_of_le_of_lt hx.2 (by norm_num)⟩
  · intro h
    have hx := onlyTrend_score f p h
    exact ⟨lt_of_lt_of_le (by norm_num) hx.1, lt_of_le_of_lt hx.2 (by norm_num)⟩
  · intro h
    have hx := onlyVolume_score f p h
    show 0 < freshScoreFinal f p ∧ freshScoreFinal f p < 100
    rw [hx]
    norm_num
  · intro h
    have hx := onlyCtx13f_score f p h
    exact ⟨lt_of_lt_of_le (by norm_num) hx.1, lt_of_le_of_lt hx.2 (by norm_num)⟩
  · intro h
    have hx := onlyMarket_score f p h
    exact ⟨lt_of_lt_of_le (by norm_num) hx.1, lt_of_le_of_lt hx.2 (by norm_num)⟩
  · intro h
    have hx := onlySector_score f p h
    exact ⟨lt_of_lt_of_le (by norm_num) hx.1, lt_of_le_of_lt hx.2 (by norm_num)⟩
  · intro h
    have hx := onlySocial_score f p h
    exact ⟨lt_of_lt_of_le (by norm_num) hx.1, lt_of_le_of_lt hx.2 (by norm_num)⟩

theorem c5_amended_single_component_witness :
    onlySc13 fSc13Only ∧ (scoreFreshSignalV0 fSc13Only pDef).score = 100 := by
  have h : onlySc13 fSc13Only := ⟨by norm_num [fSc13Only, fZero], ⟨rfl, rfl, rfl, rfl, rfl⟩,
    ⟨rfl, rfl, rfl⟩, ⟨rfl, rfl, rfl, rfl, rfl⟩⟩
  exact ⟨h, (c5_amended_single_component fSc13Only pDef).1 h⟩

theorem countP_filterMap_guard {α : Type} (q : String → Bool) (row : String → α)
    (tk : α → String) (hrow : ∀ s, tk (row s) = s) (t : String) :
    ∀ l : List String, l.Nodup →
      (l.filterMap (fun s => if q s then some (row s) else none)).countP
          (fun r => decide (tk r = t)) =
        if t ∈ l ∧ q t = true then 1 else 0 := by
  intro l
  induction l with
  | nil =>
    intro _
    simp
  | cons a l ih =>
    intro hnd
    rw [List.nodup_cons] at hnd
    obtain ⟨ha, hl⟩ := hnd
    by_cases hq : q a = true
    · rw [List.filterMap_cons, if_pos hq]
      dsimp only
      rw [List.countP_cons, ih hl]
      by_cases hat : a = t
      · subst hat
        rw [if_neg (fun hc => ha hc.1)]
        simp [hrow, hq]
      · have hd : (decide (tk (row a) = t) : Bool) = false := by
          rw [hrow]
          exact decide_eq_false hat
        rw [hd]
        have hiff : (t ∈ a :: l ∧ q t = true) ↔ (t ∈ l ∧ q t = true) := by
          rw [List.mem_cons]
          constructor
          · rintro ⟨ht | ht, hq2⟩
            · exact absurd ht.symm hat
            · exact ⟨ht, hq2⟩
          · rintro ⟨ht, hq2⟩
            exact ⟨Or.inr ht, hq2⟩
        rw [if_congr hiff rfl rfl]
        simp
    · rw [List.filterMap_cons, if_neg hq]
      dsimp only
      rw [ih hl]
      by_cases hat : a = t
      · subst hat
        rw [if_neg (fun hc => ha hc.1), if_neg (fun hc => hq hc.2)]
      · have hiff : (t ∈ a :: l ∧ q t = true) ↔ (t ∈ l ∧ q t = true) := by
          rw [List.mem_cons]
          constructor
          · rintro ⟨ht | ht, hq2⟩
            · exact absurd ht.symm hat
            · exact ⟨ht, hq2⟩
          · rintro ⟨ht, hq2⟩
            exact ⟨Or.inr ht, hq2⟩
        rw [if_congr hiff rfl rfl]

/-- C2 (amended): within one run the scorer builds exactly one row per
qualifying ticker of the deduplicated ticker universe — so no ticker ever
gets two rows — but the final ranking keeps only the top_n rows, so a
qualifying ticker can be dropped from the emitted list: the emitted count
per ticker is bounded by the pre-truncation count, which is exactly one
for a qualifying ticker and zero otherwise. -/
theorem c2_amended_unique_per_ticker (db : Db) (p : FreshSignalParams) (t : String) :
    (freshRowsAll db p).countP (fun r => decide (r.ticker = t)) =
      (if t ∈ freshTickers db p ∧ freshQualifies db p t = true then 1 else 0) ∧
      (computeFreshSignalsV0 db p).countP (fun r => decide (r.ticker = t)) ≤
        (freshRowsAll db p).countP (fun r => decide (r.ticker = t)) := by
  constructor
  · unfold freshRowsAll
    exact countP_filterMap_guard (freshQualifies db p)
      (freshRowFor db p (freshTickers db p)) FreshSignalRow.ticker
      (fun s => rfl) t (freshTickers db p) (sortedDedup_nodup _)
  · unfold computeFreshSignalsV0
    split_ifs
    · simp
    · calc (List.countP (fun r => decide (r.ticker = t))
            ((List.insertionSort freshRowGe (freshRowsAll db p)).take p.top_n))
          ≤ List.countP (fun r => decide (r.ticker = t))
            (List.insertionSort freshRowGe (freshRowsAll db p)) :=
            (List.take_sublist _ _).countP_le _
        _ = List.countP (fun r => decide (r.ticker = t)) (freshRowsAll db p) :=
            (List.perm_insertionSort freshRowGe (freshRowsAll db p)).countP_eq _

/-- C2 counterexample: with top_n = 0 the ticker "B" qualifies (it has a
fresh SC13 filing), yet compute_fresh_signals_v0 emits no result at all:
the truncation to the top_n ranked rows can drop a qualifying ticker, so
"one result per qualifying ticker" fails for the emitted list. -/
theorem c2_qualifying_dropped_counterexample :
    freshQualifies dbC2 pC2 "B" = true ∧ computeFreshSignalsV0 dbC2 pC2 = [] := by
  constructor
  · rfl
  · unfold computeFreshSignalsV0
    rw [if_neg]
    · rw [show pC2.top_n = 0 from rfl]
      exact List.take_zero _
    · intro hc
      rw [show (freshTickers dbC2 pC2).isEmpty = false from rfl] at hc
      exact Bool.false_ne_true hc
